import Mathlib

/-!
# OpenPACE `src/eac_dh.c`: Diffie-Hellman helper functions

A shallow embedding of `eac_dh.c` and of the OpenSSL routines it calls.

* A `BIGNUM` is a natural number: every big number this file handles is decoded
  from an unsigned byte string or derived from one by operations that stay
  non-negative on the inputs considered.
* A C function that returns `NULL` or `0` on error returns `none` here.
* Allocation failures are not modelled: allocations succeed.
* A run that frees memory twice has no defined result; it is the outcome
  `Outcome.undefined`.
* The probabilistic primality test of the library is the exact one.
* The OpenSSL routines follow OpenSSL 1.1.1 (`crypto/dh/dh_check.c`,
  `crypto/dh/dh_key.c`, `crypto/dh/dh_asn1.c`, `crypto/dh/dh_lib.c`,
  `crypto/bn/bn_exp.c`, `crypto/bn/bn_lib.c`), the API generation whose
  accessors (`DH_get0_pqg`, `DH_get0_key`, `DH_set0_pqg`) the file uses.
-/

namespace EacDh

/-! ## The constant tables of `eac_dh.c` -/

/-- Table rfc_5114_modp_1_p of eac_dh.c, 128 bytes. -/
def rfc_5114_modp_1_p : List Nat := [
   0xB1, 0x0B, 0x8F, 0x96, 0xA0, 0x80, 0xE0, 0x1D, 0xDE, 0x92, 0xDE, 0x5E,
   0xAE, 0x5D, 0x54, 0xEC, 0x52, 0xC9, 0x9F, 0xBC, 0xFB, 0x06, 0xA3, 0xC6,
   0x9A, 0x6A, 0x9D, 0xCA, 0x52, 0xD2, 0x3B, 0x61, 0x60, 0x73, 0xE2, 0x86,
   0x75, 0xA2, 0x3D, 0x18, 0x98, 0x38, 0xEF, 0x1E, 0x2E, 0xE6, 0x52, 0xC0,
   0x13, 0xEC, 0xB4, 0xAE, 0xA9, 0x06, 0x11, 0x23, 0x24, 0x97, 0x5C, 0x3C,
   0xD4, 0x9B, 0x83, 0xBF, 0xAC, 0xCB, 0xDD, 0x7D, 0x90, 0xC4, 0xBD, 0x70,
   0x98, 0x48, 0x8E, 0x9C, 0x21, 0x9A, 0x73, 0x72, 0x4E, 0xFF, 0xD6, 0xFA,
   0xE5, 0x64, 0x47, 0x38, 0xFA, 0xA3, 0x1A, 0x4F, 0xF5, 0x5B, 0xCC, 0xC0,
   0xA1, 0x51, 0xAF, 0x5F, 0x0D, 0xC8, 0xB4, 0xBD, 0x45, 0xBF, 0x37, 0xDF,
   0x36, 0x5C, 0x1A, 0x65, 0xE6, 0x8C, 0xFD, 0xA7, 0x6D, 0x4D, 0xA7, 0x08,
   0xDF, 0x1F, 0xB2, 0xBC, 0x2E, 0x4A, 0x43, 0x71]

/-- Table rfc_5114_modp_1_g of eac_dh.c, 128 bytes. -/
def rfc_5114_modp_1_g : List Nat := [
   0xA4, 0xD1, 0xCB, 0xD5, 0xC3, 0xFD, 0x34, 0x12, 0x67, 0x65, 0xA4, 0x42,
   0xEF, 0xB9, 0x99, 0x05, 0xF8, 0x10, 0x4D, 0xD2, 0x58, 0xAC, 0x50, 0x7F,
   0xD6, 0x40, 0x6C, 0xFF, 0x14, 0x26, 0x6D, 0x31, 0x26, 0x6F, 0xEA, 0x1E,
   0x5C, 0x41, 0x56, 0x4B, 0x77, 0x7E, 0x69, 0x0F, 0x55, 0x04, 0xF2, 0x13,
   0x16, 0x02, 0x17, 0xB4, 0xB0, 0x1B, 0x88, 0x6A, 0x5E, 0x91, 0x54, 0x7F,
   0x9E, 0x27, 0x49, 0xF4, 0xD7, 0xFB, 0xD7, 0xD3, 0xB9, 0xA9, 0x2E, 0xE1,
   0x90, 0x9D, 0x0D, 0x22, 0x63, 0xF8, 0x0A, 0x76, 0xA6, 0xA2, 0x4C, 0x08,
   0x7A, 0x09, 0x1F, 0x53, 0x1D, 0xBF, 0x0A, 0x01, 0x69, 0xB6, 0xA2, 0x8A,
   0xD6, 0x62, 0xA4, 0xD1, 0x8E, 0x73, 0xAF, 0xA3, 0x2D, 0x77, 0x9D, 0x59,
   0x18, 0xD0, 0x8B, 0xC8, 0x85, 0x8F, 0x4D, 0xCE, 0xF9, 0x7C, 0x2A, 0x24,
   0x85, 0x5E, 0x6E, 0xEB, 0x22, 0xB3, 0xB2, 0xE5]

/-- Table rfc_5114_modp_1_q of eac_dh.c, 20 bytes. -/
def rfc_5114_modp_1_q : List Nat := [
   0xF5, 0x18, 0xAA, 0x87, 0x81, 0xA8, 0xDF, 0x27, 0x8A, 0xBA, 0x4E, 0x7D,
   0x64, 0xB7, 0xCB, 0x9D, 0x49, 0x46, 0x23, 0x53]

/-- Table rfc_5114_modp_2_p of eac_dh.c, 256 bytes. -/
def rfc_5114_modp_2_p : List Nat := [
   0xAD, 0x10, 0x7E, 0x1E, 0x91, 0x23, 0xA9, 0xD0, 0xD6, 0x60, 0xFA, 0xA7,
   0x95, 0x59, 0xC5, 0x1F, 0xA2, 0x0D, 0x64, 0xE5, 0x68, 0x3B, 0x9F, 0xD1,
   0xB5, 0x4B, 0x15, 0x97, 0xB6, 0x1D, 0x0A, 0x75, 0xE6, 0xFA, 0x14, 0x1D,
   0xF9, 0x5A, 0x56, 0xDB, 0xAF, 0x9A, 0x3C, 0x40, 0x7B, 0xA1, 0xDF, 0x15,
   0xEB, 0x3D, 0x68, 0x8A, 0x30, 0x9C, 0x18, 0x0E, 0x1D, 0xE6, 0xB8, 0x5A,
   0x12, 0x74, 0xA0, 0xA6, 0x6D, 0x3F, 0x81, 0x52, 0xAD, 0x6A, 0xC2, 0x12,
   0x90, 0x37, 0xC9, 0xED, 0xEF, 0xDA, 0x4D, 0xF8, 0xD9, 0x1E, 0x8F, 0xEF,
   0x55, 0xB7, 0x39, 0x4B, 0x7A, 0xD5, 0xB7, 0xD0, 0xB6, 0xC1, 0x22, 0x07,
   0xC9, 0xF9, 0x8D, 0x11, 0xED, 0x34, 0xDB, 0xF6, 0xC6, 0xBA, 0x0B, 0x2C,
   0x8B, 0xBC, 0x27, 0xBE, 0x6A, 0x00, 0xE0, 0xA0, 0xB9, 0xC4, 0x97, 0x08,
   0xB3, 0xBF, 0x8A, 0x31, 0x70, 0x91, 0x88, 0x36, 0x81, 0x28, 0x61, 0x30,
   0xBC, 0x89, 0x85, 0xDB, 0x16, 0x02, 0xE7, 0x14, 0x41, 0x5D, 0x93, 0x30,
   0x27, 0x82, 0x73, 0xC7, 0xDE, 0x31, 0xEF, 0xDC, 0x73, 0x10, 0xF7, 0x12,
   0x1F, 0xD5, 0xA0, 0x74, 0x15, 0x98, 0x7D, 0x9A, 0xDC, 0x0A, 0x48, 0x6D,
   0xCD, 0xF9, 0x3A, 0xCC, 0x44, 0x32, 0x83, 0x87, 0x31, 0x5D, 0x75, 0xE1,
   0x98, 0xC6, 0x41, 0xA4, 0x80, 0xCD, 0x86, 0xA1, 0xB9, 0xE5, 0x87, 0xE8,
   0xBE, 0x60, 0xE6, 0x9C, 0xC9, 0x28, 0xB2, 0xB9, 0xC5, 0x21, 0x72, 0xE4,
   0x13, 0x04, 0x2E, 0x9B, 0x23, 0xF1, 0x0B, 0x0E, 0x16, 0xE7, 0x97, 0x63,
   0xC9, 0xB5, 0x3D, 0xCF, 0x4B, 0xA8, 0x0A, 0x29, 0xE3, 0xFB, 0x73, 0xC1,
   0x6B, 0x8E, 0x75, 0xB9, 0x7E, 0xF3, 0x63, 0xE2, 0xFF, 0xA3, 0x1F, 0x71,
   0xCF, 0x9D, 0xE5, 0x38, 0x4E, 0x71, 0xB8, 0x1C, 0x0A, 0xC4, 0xDF, 0xFE,
   0x0C, 0x10, 0xE6, 0x4F]

/-- Table rfc_5114_modp_2_g of eac_dh.c, 256 bytes. -/
def rfc_5114_modp_2_g : List Nat := [
   0xAC, 0x40, 0x32, 0xEF, 0x4F, 0x2D, 0x9A, 0xE3, 0x9D, 0xF3, 0x0B, 0x5C,
   0x8F, 0xFD, 0xAC, 0x50, 0x6C, 0xDE, 0xBE, 0x7B, 0x89, 0x99, 0x8C, 0xAF,
   0x74, 0x86, 0x6A, 0x08, 0xCF, 0xE4, 0xFF, 0xE3, 0xA6, 0x82, 0x4A, 0x4E,
   0x10, 0xB9, 0xA6, 0xF0, 0xDD, 0x92, 0x1F, 0x01, 0xA7, 0x0C, 0x4A, 0xFA,
   0xAB, 0x73, 0x9D, 0x77, 0x00, 0xC2, 0x9F, 0x52, 0xC5, 0x7D, 0xB1, 0x7C,
   0x62, 0x0A, 0x86, 0x52, 0xBE, 0x5E, 0x90, 0x01, 0xA8, 0xD6, 0x6A, 0xD7,
   0xC1, 0x76, 0x69, 0x10, 0x19, 0x99, 0x02, 0x4A, 0xF4, 0xD0, 0x27, 0x27,
   0x5A, 0xC1, 0x34, 0x8B, 0xB8, 0xA7, 0x62, 0xD0, 0x52, 0x1B, 0xC9, 0x8A,
   0xE2, 0x47, 0x15, 0x04, 0x22, 0xEA, 0x1E, 0xD4, 0x09, 0x93, 0x9D, 0x54,
   0xDA, 0x74, 0x60, 0xCD, 0xB5, 0xF6, 0xC6, 0xB2, 0x50, 0x71, 0x7C, 0xBE,
   0xF1, 0x80, 0xEB, 0x34, 0x11, 0x8E, 0x98, 0xD1, 0x19, 0x52, 0x9A, 0x45,
   0xD6, 0xF8, 0x34, 0x56, 0x6E, 0x30, 0x25, 0xE3, 0x16, 0xA3, 0x30, 0xEF,
   0xBB, 0x77, 0xA8, 0x6F, 0x0C, 0x1A, 0xB1, 0x5B, 0x05, 0x1A, 0xE3, 0xD4,
   0x28, 0xC8, 0xF8, 0xAC, 0xB7, 0x0A, 0x81, 0x37, 0x15, 0x0B, 0x8E, 0xEB,
   0x10, 0xE1, 0x83, 0xED, 0xD1, 0x99, 0x63, 0xDD, 0xD9, 0xE2, 0x63, 0xE4,
   0x77, 0x05, 0x89, 0xEF, 0x6A, 0xA2, 0x1E, 0x7F, 0x5F, 0x2F, 0xF3, 0x81,
   0xB5, 0x39, 0xCC, 0xE3, 0x40, 0x9D, 0x13, 0xCD, 0x56, 0x6A, 0xFB, 0xB4,
   0x8D, 0x6C, 0x01, 0x91, 0x81, 0xE1, 0xBC, 0xFE, 0x94, 0xB3, 0x02, 0x69,
   0xED, 0xFE, 0x72, 0xFE, 0x9B, 0x6A, 0xA4, 0xBD, 0x7B, 0x5A, 0x0F, 0x1C,
   0x71, 0xCF, 0xFF, 0x4C, 0x19, 0xC4, 0x18, 0xE1, 0xF6, 0xEC, 0x01, 0x79,
   0x81, 0xBC, 0x08, 0x7F, 0x2A, 0x70, 0x65, 0xB3, 0x84, 0xB8, 0x90, 0xD3,
   0x19, 0x1F, 0x2B, 0xFA]

/-- Table rfc_5114_modp_2_q of eac_dh.c, 28 bytes. -/
def rfc_5114_modp_2_q : List Nat := [
   0x80, 0x1C, 0x0D, 0x34, 0xC5, 0x8D, 0x93, 0xFE, 0x99, 0x71, 0x77, 0x10,
   0x1F, 0x80, 0x53, 0x5A, 0x47, 0x38, 0xCE, 0xBC, 0xBF, 0x38, 0x9A, 0x99,
   0xB3, 0x63, 0x71, 0xEB]

/-- Table rfc_5114_modp_3_p of eac_dh.c, 256 bytes. -/
def rfc_5114_modp_3_p : List Nat := [
   0x87, 0xA8, 0xE6, 0x1D, 0xB4, 0xB6, 0x66, 0x3C, 0xFF, 0xBB, 0xD1, 0x9C,
   0x65, 0x19, 0x59, 0x99, 0x8C, 0xEE, 0xF6, 0x08, 0x66, 0x0D, 0xD0, 0xF2,
   0x5D, 0x2C, 0xEE, 0xD4, 0x43, 0x5E, 0x3B, 0x00, 0xE0, 0x0D, 0xF8, 0xF1,
   0xD6, 0x19, 0x57, 0xD4, 0xFA, 0xF7, 0xDF, 0x45, 0x61, 0xB2, 0xAA, 0x30,
   0x16, 0xC3, 0xD9, 0x11, 0x34, 0x09, 0x6F, 0xAA, 0x3B, 0xF4, 0x29, 0x6D,
   0x83, 0x0E, 0x9A, 0x7C, 0x20, 0x9E, 0x0C, 0x64, 0x97, 0x51, 0x7A, 0xBD,
   0x5A, 0x8A, 0x9D, 0x30, 0x6B, 0xCF, 0x67, 0xED, 0x91, 0xF9, 0xE6, 0x72,
   0x5B, 0x47, 0x58, 0xC0, 0x22, 0xE0, 0xB1, 0xEF, 0x42, 0x75, 0xBF, 0x7B,
   0x6C, 0x5B, 0xFC, 0x11, 0xD4, 0x5F, 0x90, 0x88, 0xB9, 0x41, 0xF5, 0x4E,
   0xB1, 0xE5, 0x9B, 0xB8, 0xBC, 0x39, 0xA0, 0xBF, 0x12, 0x30, 0x7F, 0x5C,
   0x4F, 0xDB, 0x70, 0xC5, 0x81, 0xB2, 0x3F, 0x76, 0xB6, 0x3A, 0xCA, 0xE1,
   0xCA, 0xA6, 0xB7, 0x90, 0x2D, 0x52, 0x52, 0x67, 0x35, 0x48, 0x8A, 0x0E,
   0xF1, 0x3C, 0x6D, 0x9A, 0x51, 0xBF, 0xA4, 0xAB, 0x3A, 0xD8, 0x34, 0x77,
   0x96, 0x52, 0x4D, 0x8E, 0xF6, 0xA1, 0x67, 0xB5, 0xA4, 0x18, 0x25, 0xD9,
   0x67, 0xE1, 0x44, 0xE5, 0x14, 0x05, 0x64, 0x25, 0x1C, 0xCA, 0xCB, 0x83,
   0xE6, 0xB4, 0x86, 0xF6, 0xB3, 0xCA, 0x3F, 0x79, 0x71, 0x50, 0x60, 0x26,
   0xC0, 0xB8, 0x57, 0xF6, 0x89, 0x96, 0x28, 0x56, 0xDE, 0xD4, 0x01, 0x0A,
   0xBD, 0x0B, 0xE6, 0x21, 0xC3, 0xA3, 0x96, 0x0A, 0x54, 0xE7, 0x10, 0xC3,
   0x75, 0xF2, 0x63, 0x75, 0xD7, 0x01, 0x41, 0x03, 0xA4, 0xB5, 0x43, 0x30,
   0xC1, 0x98, 0xAF, 0x12, 0x61, 0x16, 0xD2, 0x27, 0x6E, 0x11, 0x71, 0x5F,
   0x69, 0x38, 0x77, 0xFA, 0xD7, 0xEF, 0x09, 0xCA, 0xDB, 0x09, 0x4A, 0xE9,
   0x1E, 0x1A, 0x15, 0x97]

/-- Table rfc_5114_modp_3_g of eac_dh.c, 256 bytes. -/
def rfc_5114_modp_3_g : List Nat := [
   0x3F, 0xB3, 0x2C, 0x9B, 0x73, 0x13, 0x4D, 0x0B, 0x2E, 0x77, 0x50, 0x66,
   0x60, 0xED, 0xBD, 0x48, 0x4C, 0xA7, 0xB1, 0x8F, 0x21, 0xEF, 0x20, 0x54,
   0x07, 0xF4, 0x79, 0x3A, 0x1A, 0x0B, 0xA1, 0x25, 0x10, 0xDB, 0xC1, 0x50,
   0x77, 0xBE, 0x46, 0x3F, 0xFF, 0x4F, 0xED, 0x4A, 0xAC, 0x0B, 0xB5, 0x55,
   0xBE, 0x3A, 0x6C, 0x1B, 0x0C, 0x6B, 0x47, 0xB1, 0xBC, 0x37, 0x73, 0xBF,
   0x7E, 0x8C, 0x6F, 0x62, 0x90, 0x12, 0x28, 0xF8, 0xC2, 0x8C, 0xBB, 0x18,
   0xA5, 0x5A, 0xE3, 0x13, 0x41, 0x00, 0x0A, 0x65, 0x01, 0x96, 0xF9, 0x31,
   0xC7, 0x7A, 0x57, 0xF2, 0xDD, 0xF4, 0x63, 0xE5, 0xE9, 0xEC, 0x14, 0x4B,
   0x77, 0x7D, 0xE6, 0x2A, 0xAA, 0xB8, 0xA8, 0x62, 0x8A, 0xC3, 0x76, 0xD2,
   0x82, 0xD6, 0xED, 0x38, 0x64, 0xE6, 0x79, 0x82, 0x42, 0x8E, 0xBC, 0x83,
   0x1D, 0x14, 0x34, 0x8F, 0x6F, 0x2F, 0x91, 0x93, 0xB5, 0x04, 0x5A, 0xF2,
   0x76, 0x71, 0x64, 0xE1, 0xDF, 0xC9, 0x67, 0xC1, 0xFB, 0x3F, 0x2E, 0x55,
   0xA4, 0xBD, 0x1B, 0xFF, 0xE8, 0x3B, 0x9C, 0x80, 0xD0, 0x52, 0xB9, 0x85,
   0xD1, 0x82, 0xEA, 0x0A, 0xDB, 0x2A, 0x3B, 0x73, 0x13, 0xD3, 0xFE, 0x14,
   0xC8, 0x48, 0x4B, 0x1E, 0x05, 0x25, 0x88, 0xB9, 0xB7, 0xD2, 0xBB, 0xD2,
   0xDF, 0x01, 0x61, 0x99, 0xEC, 0xD0, 0x6E, 0x15, 0x57, 0xCD, 0x09, 0x15,
   0xB3, 0x35, 0x3B, 0xBB, 0x64, 0xE0, 0xEC, 0x37, 0x7F, 0xD0, 0x28, 0x37,
   0x0D, 0xF9, 0x2B, 0x52, 0xC7, 0x89, 0x14, 0x28, 0xCD, 0xC6, 0x7E, 0xB6,
   0x18, 0x4B, 0x52, 0x3D, 0x1D, 0xB2, 0x46, 0xC3, 0x2F, 0x63, 0x07, 0x84,
   0x90, 0xF0, 0x0E, 0xF8, 0xD6, 0x47, 0xD1, 0x48, 0xD4, 0x79, 0x54, 0x51,
   0x5E, 0x23, 0x27, 0xCF, 0xEF, 0x98, 0xC5, 0x82, 0x66, 0x4B, 0x4C, 0x0F,
   0x6C, 0xC4, 0x16, 0x59]

/-- Table rfc_5114_modp_3_q of eac_dh.c, 32 bytes. -/
def rfc_5114_modp_3_q : List Nat := [
   0x8C, 0xF8, 0x36, 0x42, 0xA7, 0x09, 0xA0, 0x97, 0xB4, 0x47, 0x99, 0x76,
   0x40, 0x12, 0x9D, 0xA2, 0x99, 0xB1, 0xA4, 0x7D, 0x1E, 0xB3, 0x75, 0x0B,
   0xA3, 0x08, 0xB0, 0xFE, 0x64, 0xF5, 0xFB, 0xD3]

/-! ## Big numbers and byte buffers -/

/-- Function `BN_bin2bn`: big-endian unsigned decoding of a byte string. Every
element of the list is read as one `unsigned char`. -/
def BN_bin2bn (s : List Nat) : Nat :=
  s.foldl (fun acc b => acc * 256 + b % 256) 0

/-- Byte count of `n` with `fuel` division steps available. -/
def numBytesAux : Nat → Nat → Nat
  | 0, _ => 0
  | fuel + 1, n => if n = 0 then 0 else numBytesAux fuel (n / 256) + 1

/-- Macro `BN_num_bytes`: the number of bytes of the minimal big-endian
encoding, `0` for the number zero. -/
def BN_num_bytes (n : Nat) : Nat :=
  numBytesAux n n

/-- The `len` low-order bytes of `n`, least significant first. -/
def bytesLE : Nat → Nat → List Nat
  | 0, _ => []
  | len + 1, n => (n % 256) :: bytesLE len (n / 256)

/-- Function `BN_bn2bin`: the minimal big-endian unsigned encoding, which has
`BN_num_bytes n` bytes. -/
def BN_bn2bin (n : Nat) : List Nat :=
  (bytesLE (BN_num_bytes n) n).reverse

/-- Function `BN_mod_exp(r, a, e, m)`: `a ^ e mod m`. It fails on a zero modulus
(division by zero) unless the exponent is zero, in which case the result is one
without any reduction taking place. -/
def BN_mod_exp (a e m : Nat) : Option Nat :=
  if m = 0 ∧ e ≠ 0 then none else some (a ^ e % m)

/-- Function `BN_is_prime_ex`, idealised as the exact primality test. -/
def BN_is_prime_ex (n : Nat) : Bool :=
  decide (Nat.Prime n)

/-- Structure `BUF_MEM`: the bytes of the buffer and its `length` field. The
content of the buffer is the first `length` bytes of `data`. -/
structure BUF_MEM where
  length : Nat
  data : List Nat
deriving DecidableEq, Repr

/-- The bytes a `BUF_MEM` holds: `data[0 .. length)`. -/
def BUF_MEM.bytes (b : BUF_MEM) : List Nat :=
  b.data.take b.length

/-- Modelled from the spec: `BUF_MEM_create` of `misc.c` is not part of the
sources at hand; it returns a fresh buffer of `len` bytes, zero-filled
("a fixed-width byte buffer sized to p's byte length"). -/
def BUF_MEM_create (len : Nat) : BUF_MEM :=
  { length := len, data := List.replicate len 0 }

/-- Modelled from the spec: `BN_bn2buf` of `misc.c` is not part of the sources
at hand; it is the "big-endian unsigned integer, no sign byte" encoding of a big
number into a buffer of `BN_num_bytes` bytes. -/
def BN_bn2buf (bn : Nat) : BUF_MEM :=
  { length := BN_num_bytes bn, data := BN_bn2bin bn }

/-! ## The `DH` object and the OpenSSL routines on it -/

/-- Structure `DH` as far as `eac_dh.c` reads it: the modulus `p`, the generator
`g`, the optional subgroup order `q` and the optional key pair. -/
structure DH where
  p : Nat
  g : Nat
  q : Option Nat
  pub_key : Option Nat
  priv_key : Option Nat
deriving DecidableEq, Repr

/-- An `EVP_PKEY`: it holds a `DH` object when its type is Diffie-Hellman. -/
structure EVP_PKEY where
  dh : Option DH
deriving DecidableEq, Repr

/-- Function `EVP_PKEY_get1_DH`: the `DH` object of the key (the object itself,
with one more reference), `NULL` when the key is of another type. -/
def EVP_PKEY_get1_DH (key : EVP_PKEY) : Option DH :=
  key.dh

def DH_CHECK_P_NOT_PRIME : Nat := 0x01
def DH_CHECK_P_NOT_SAFE_PRIME : Nat := 0x02
def DH_UNABLE_TO_CHECK_GENERATOR : Nat := 0x04
def DH_CHECK_PUBKEY_TOO_SMALL : Nat := 0x01
def DH_CHECK_PUBKEY_TOO_LARGE : Nat := 0x02
/-- Line 213 of `eac_dh.c`. -/
def DH_CHECK_PUBKEY_INVALID : Nat := 0x04

/-- OpenSSL `DH_check_pub_key` (`dh_check.c`): the flags it stores in `*ret`, or
`none` when it returns `0`. The value is too small when `pub_key <= 1`, too large
when `pub_key >= p - 1`, and when `q` is set it is invalid unless
`pub_key ^ q mod p` is one. -/
def DH_check_pub_key (dh : DH) (pub_key : Nat) : Option Nat :=
  let ret := 0
  let ret := if pub_key ≤ 1 then ret ||| DH_CHECK_PUBKEY_TOO_SMALL else ret
  let ret := if pub_key ≥ dh.p - 1 then ret ||| DH_CHECK_PUBKEY_TOO_LARGE else ret
  match dh.q with
  | none => some ret
  | some q =>
    match BN_mod_exp pub_key q dh.p with
    | none => none
    | some tmp => some (if tmp ≠ 1 then ret ||| DH_CHECK_PUBKEY_INVALID else ret)

/-- Function `DH_size`: the byte length of `p`. -/
def DH_size (dh : DH) : Nat :=
  BN_num_bytes dh.p

/-- Bit count of `n` with `fuel` halving steps available. -/
def numBitsAux : Nat → Nat → Nat
  | 0, _ => 0
  | fuel + 1, n => if n = 0 then 0 else numBitsAux fuel (n / 2) + 1

/-- Function `BN_num_bits`: the number of significant bits, `0` for zero. -/
def BN_num_bits (n : Nat) : Nat :=
  numBitsAux n n

/-- Constant `OPENSSL_DH_MAX_MODULUS_BITS` of `openssl/dh.h`. -/
def OPENSSL_DH_MAX_MODULUS_BITS : Nat := 10000

/-- Function `BN_mod_exp_mont(r, a, e, m)`, the Montgomery exponentiation the
`DH` method uses: `a ^ e mod m` for an odd modulus; an even modulus (zero
included) is refused. -/
def BN_mod_exp_mont (a e m : Nat) : Option Nat :=
  if m % 2 = 0 then none else some (a ^ e % m)

/-- OpenSSL `DH_compute_key` (`compute_key` of `dh_key.c`): the bytes it writes
to the start of the output buffer, their number being its return value; `none`
when it returns `-1`. It refuses a modulus of more than
`OPENSSL_DH_MAX_MODULUS_BITS` bits, needs a private value, refuses an even
modulus (the Montgomery context cannot be set up for it), rejects a peer value
on which `DH_check_pub_key` fails or sets a flag, and writes
`pub_key ^ priv_key mod p` with `BN_bn2bin`. The 3.x generation of the library
differs from this one: it checks the computed secret instead of the peer value
and requires a modulus of at least 512 bits. -/
def DH_compute_key (pub_key : Nat) (dh : DH) : Option (List Nat) :=
  if BN_num_bits dh.p > OPENSSL_DH_MAX_MODULUS_BITS then none
  else
    match dh.priv_key with
    | none => none
    | some priv_key =>
      if dh.p % 2 = 0 then none
      else
        match DH_check_pub_key dh pub_key with
        | none => none
        | some check_result =>
          if check_result ≠ 0 then none
          else
            match BN_mod_exp_mont pub_key priv_key dh.p with
            | none => none
            | some tmp => some (BN_bn2bin tmp)

/-- OpenSSL `DHparams_dup`: a copy made through the PKCS#3 `DHparameter`
encoding, which carries `p` and `g` but neither `q` nor the key pair. -/
def DHparams_dup (dh : DH) : DH :=
  { p := dh.p, g := dh.g, q := none, pub_key := none, priv_key := none }

/-- OpenSSL `DH_set0_pqg`: each non-`NULL` argument replaces the field of that
name, a `NULL` argument leaves the field as it is. -/
def DH_set0_pqg (dh : DH) (p q g : Option Nat) : DH :=
  { dh with
    p := match p with
      | some v => v
      | none => dh.p
    q := match q with
      | some v => some v
      | none => dh.q
    g := match g with
      | some v => v
      | none => dh.g }

/-- Function `BN_dup`: a copy of the number, `NULL` for `NULL`. -/
def BN_dup (a : Option Nat) : Option Nat :=
  a

/-! ## The functions of `eac_dh.c` -/

/-- Result of running a C function: it returns a value, or the run frees memory
twice and has no defined result. -/
inductive Outcome (α : Type) where
  | returns (value : α)
  | undefined
deriving DecidableEq, Repr

/-- Function `get_rfc5114_modp` (lines 448-505). The structural check `DH_check`
of the library is a parameter: it gives the flag word, or `none` on error. An
invalid `num` returns `NULL`. When the check errors or reports
`DH_CHECK_P_NOT_PRIME`, the `err` path is entered after `DH_set0_pqg` has handed
`p`, `q` and `g` over to `ret`: `DH_free(ret)` frees them and `BN_free` frees
each of them again, so the run has no defined result. -/
def get_rfc5114_modp (DH_check : DH → Option Nat) (num : Int) : Outcome (Option DH) :=
  let tables : Option (List Nat × List Nat × List Nat) :=
    if num = 0 then some (rfc_5114_modp_1_p, rfc_5114_modp_1_g, rfc_5114_modp_1_q)
    else if num = 1 then some (rfc_5114_modp_2_p, rfc_5114_modp_2_g, rfc_5114_modp_2_q)
    else if num = 2 then some (rfc_5114_modp_3_p, rfc_5114_modp_3_g, rfc_5114_modp_3_q)
    else none
  match tables with
  | none => Outcome.returns none
  | some (p, g, q) =>
    let ret : DH :=
      { p := BN_bin2bn p, g := BN_bin2bn g, q := some (BN_bin2bn q),
        pub_key := none, priv_key := none }
    match DH_check ret with
    | none => Outcome.undefined
    | some check =>
      if check &&& DH_CHECK_P_NOT_PRIME ≠ 0 then Outcome.undefined
      else Outcome.returns (some ret)

/-- Function `init_dh` (lines 215-253). When the run returns, the first
component is the caller's slot `*dh` after the call and the second is the return
value (`true` for `1`). The flag word is a 32-bit `int`; `~flag` is its
complement within 32 bits. -/
def init_dh (DH_check : DH → Option Nat) (dh : Option DH)
    (standardizedDomainParameters : Int) : Outcome (Option DH × Bool) :=
  let resolved : Outcome (Option DH) :=
    match dh with
    | none => get_rfc5114_modp DH_check standardizedDomainParameters
    | some d => Outcome.returns (some d)
  match resolved with
  | Outcome.undefined => Outcome.undefined
  | Outcome.returns none => Outcome.returns (dh, false)
  | Outcome.returns (some tmp) =>
    match DH_check tmp with
    | none => Outcome.returns (dh, false)
    | some flags =>
      let i := flags % 2 ^ 32
      let i := i &&& (2 ^ 32 - 1 - DH_CHECK_P_NOT_SAFE_PRIME)
      let i := i &&& (2 ^ 32 - 1 - DH_UNABLE_TO_CHECK_GENERATOR)
      if i = 0 then Outcome.returns (some tmp, true) else Outcome.returns (dh, false)

/-- Function `DH_check_pub_key_rfc` (lines 255-289): the flags stored in `*ret`,
or `none` when it returns `0`. A `DH` object without a public value is outside
its use (the caller generates one first) and is reported as a failure. -/
def DH_check_pub_key_rfc (dh : DH) : Option Nat :=
  match dh.pub_key with
  | none => none
  | some pub_key =>
    match DH_check_pub_key dh pub_key with
    | none => none
    | some ret =>
      match dh.q with
      | none => some ret
      | some q =>
        match BN_mod_exp pub_key q dh.p with
        | none => none
        | some bn => some (if bn ≠ 1 then ret ||| DH_CHECK_PUBKEY_INVALID else ret)

/-- Function `DH_get_q` (lines 292-334). -/
def DH_get_q (dh : DH) : Option Nat :=
  let q_new :=
    match dh.q with
    | none => (dh.p - 1) / 2
    | some q => q
  if BN_is_prime_ex q_new then some q_new else none

/-- Function `DH_get_order` (lines 336-373). -/
def DH_get_order (dh : DH) : Option Nat :=
  match DH_get_q dh with
  | none => none
  | some q =>
    let order := q - 1
    match BN_mod_exp dh.g order dh.p with
    | none => none
    | some bn =>
      if bn ≠ 1 then
        let order := dh.p - 1
        match BN_mod_exp dh.g order dh.p with
        | none => none
        | some bn => if bn = 1 then some order else none
      else some order

/-- Function `dh_generate_key` (lines 375-404). The randomised `DH_generate_key`
of the library is represented by its outcome `gen`: `none` when it returns `0`,
`some (priv, pub)` when it stores that pair in the `DH` object. The `DH` object
is the one the key holds, so the first component is the key after the call. -/
def dh_generate_key (key : EVP_PKEY) (gen : Option (Nat × Nat)) :
    EVP_PKEY × Option BUF_MEM :=
  match EVP_PKEY_get1_DH key with
  | none => (key, none)
  | some dh =>
    match gen with
    | none => (key, none)
    | some (priv, pub) =>
      let dh : DH := { dh with priv_key := some priv, pub_key := some pub }
      let key : EVP_PKEY := { dh := some dh }
      match DH_check_pub_key_rfc dh with
      | none => (key, none)
      | some suc =>
        if suc ≠ 0 then (key, none)
        else
          match dh.pub_key with
          | none => (key, none)
          | some pub_key => (key, some (BN_bn2buf pub_key))

/-- Function `dh_compute_key` (lines 406-446). The library writes the secret to
the start of the `DH_size` bytes of `out`, and the number of bytes written
becomes `out->length`. -/
def dh_compute_key (key : EVP_PKEY) (inp : BUF_MEM) : Option BUF_MEM :=
  match EVP_PKEY_get1_DH key with
  | none => none
  | some dh =>
    let bn := BN_bin2bn inp.bytes
    let out := BUF_MEM_create (DH_size dh)
    match DH_compute_key bn dh with
    | none => none
    | some written =>
      some { length := written.length,
             data := written ++ out.data.drop written.length }

/-- Function `DHparams_dup_with_q` (lines 507-517). -/
def DHparams_dup_with_q (dh : DH) : DH :=
  let dup := DHparams_dup dh
  DH_set0_pqg dup (BN_dup (some dh.p)) (BN_dup dh.q) (BN_dup (some dh.g))

/-! ## Auxiliary definitions for the proofs -/

/-- The flag word of the public-key check written out, for a subgroup test whose
failure is the proposition `B`. -/
def pubkeyWord (y p : Nat) (B : Prop) [Decidable B] : Nat :=
  let ret := 0
  let ret := if y ≤ 1 then ret ||| DH_CHECK_PUBKEY_TOO_SMALL else ret
  let ret := if y ≥ p - 1 then ret ||| DH_CHECK_PUBKEY_TOO_LARGE else ret
  let ret := if B then ret ||| DH_CHECK_PUBKEY_INVALID else ret
  let ret := if B then ret ||| DH_CHECK_PUBKEY_INVALID else ret
  ret


/-- Failure kinds of the order derivation, as the specification names them. -/
inductive ErrorKind where
  | MalformedGroup
  | UnableToDetermineOrder
deriving DecidableEq, Repr

/-- Reference for `derive_subgroup_order`, written after the specification: the
candidate is `q` when present and `(p - 1) / 2` otherwise; it is returned when
prime, and the derivation fails with `MalformedGroup` when it is not. -/
def derive_subgroup_order_ref (dh : DH) : Except ErrorKind Nat :=
  let c :=
    match dh.q with
    | some q => q
    | none => (dh.p - 1) / 2
  if Nat.Prime c then Except.ok c else Except.error ErrorKind.MalformedGroup

/-- Reference for `derive_generator_order`, written after the specification, for
parameters whose subgroup order is `q`: `q - 1` when `g ^ (q - 1) mod p = 1`,
else `p - 1` when `g ^ (p - 1) mod p = 1`, else `UnableToDetermineOrder`. -/
def derive_generator_order_ref (dh : DH) (q : Nat) : Except ErrorKind Nat :=
  if dh.g ^ (q - 1) % dh.p = 1 then Except.ok (q - 1)
  else if dh.g ^ (dh.p - 1) % dh.p = 1 then Except.ok (dh.p - 1)
  else Except.error ErrorKind.UnableToDetermineOrder

/-- Square-and-multiply with `fuel` halving steps of the exponent: the value is
congruent to `acc * b ^ e` modulo `m` when `e < 2 ^ fuel`. It is the way the
powers of the registry groups are evaluated. -/
def powModAux : Nat → Nat → Nat → Nat → Nat → Nat
  | 0, _, _, _, acc => acc
  | fuel + 1, b, e, m, acc =>
    if e = 0 then acc
    else powModAux fuel (b * b % m) (e / 2) m (if e % 2 = 1 then acc * b % m else acc)

/-- The multiplicative order of `g` modulo `p` is `n`: `n >= 1`,
`g ^ n mod p = 1`, and no smaller positive exponent gives one. -/
def IsMultiplicativeOrder (g p n : Nat) : Prop :=
  1 ≤ n ∧ g ^ n % p = 1 ∧ ∀ m < n, 1 ≤ m → g ^ m % p ≠ 1

instance (g p n : Nat) : Decidable (IsMultiplicativeOrder g p n) := by
  unfold IsMultiplicativeOrder
  infer_instance

/-- Example key: the parameters `p = 2 ^ 521 - 1` (a prime of 521 bits), `g = 2`
and `q = 521` (the order of `2` modulo `p`), with the private value `3`. -/
def exampleKey521 : DH :=
  { p := 2 ^ 521 - 1, g := 2, q := some 521, pub_key := none, priv_key := some 3 }

/-! ## Auxiliary facts on the byte encodings -/

theorem numBytesAux_eq (fuel n : Nat) (h : n ≤ fuel) :
    numBytesAux fuel n = if n = 0 then 0 else Nat.log 256 n + 1 := by
  induction fuel generalizing n with
  | zero =>
    have h0 : n = 0 := by omega
    simp [numBytesAux, h0]
  | succ f ih =>
    by_cases hn : n = 0
    · simp [numBytesAux, hn]
    · have hdiv : n / 256 ≤ f := by
        have : n / 256 < n := Nat.div_lt_self (by omega) (by decide)
        omega
      simp only [numBytesAux, hn, if_false]
      rw [ih (n / 256) hdiv]
      by_cases hq : n / 256 = 0
      · have hlt : n < 256 := by
          exact (Nat.div_eq_zero_iff (by decide)).mp hq
        simp [hq, Nat.log_of_lt hlt]
      · have hge : 256 ≤ n := by
          by_contra hcon
          exact hq (Nat.div_eq_of_lt (by omega))
        have hpos : 0 < Nat.log 256 n := Nat.log_pos (by decide) hge
        simp only [hq, if_false, Nat.log_div_base]
        omega

theorem BN_num_bytes_eq (n : Nat) :
    BN_num_bytes n = if n = 0 then 0 else Nat.log 256 n + 1 :=
  numBytesAux_eq n n (Nat.le_refl n)

theorem lt_pow_BN_num_bytes (n : Nat) : n < 256 ^ BN_num_bytes n := by
  rw [BN_num_bytes_eq]
  by_cases hn : n = 0
  · simp [hn]
  · simp only [hn, if_false]
    exact Nat.lt_pow_succ_log_self (by decide) n

theorem BN_num_bytes_mono (a b : Nat) (h : a ≤ b) : BN_num_bytes a ≤ BN_num_bytes b := by
  rw [BN_num_bytes_eq, BN_num_bytes_eq]
  by_cases ha : a = 0
  · simp [ha]
  · have hb : b ≠ 0 := by omega
    simp only [ha, hb, if_false]
    have := Nat.log_mono_right (b := 256) h
    omega

theorem bytesLE_length (len n : Nat) : (bytesLE len n).length = len := by
  induction len generalizing n with
  | zero => rfl
  | succ k ih => simp [bytesLE, ih]

theorem BN_bn2bin_length (n : Nat) : (BN_bn2bin n).length = BN_num_bytes n := by
  simp [BN_bn2bin, bytesLE_length]

theorem foldr_bytesLE (len n : Nat) :
    (bytesLE len n).foldr (fun b acc => acc * 256 + b % 256) 0 = n % 256 ^ len := by
  induction len generalizing n with
  | zero => simp [bytesLE, Nat.mod_one]
  | succ k ih =>
    simp only [bytesLE, List.foldr_cons, ih]
    rw [Nat.mod_mod, pow_succ, Nat.mul_comm (256 ^ k) 256, Nat.mod_mul]
    ring

theorem BN_bin2bn_reverse (l : List Nat) :
    BN_bin2bn l.reverse = l.foldr (fun b acc => acc * 256 + b % 256) 0 := by
  simp [BN_bin2bn, List.foldl_reverse]

theorem BN_bin2bn_bn2bin (n : Nat) : BN_bin2bn (BN_bn2bin n) = n := by
  rw [BN_bn2bin, BN_bin2bn_reverse, foldr_bytesLE]
  exact Nat.mod_eq_of_lt (lt_pow_BN_num_bytes n)

theorem BN_bn2buf_bytes (n : Nat) : (BN_bn2buf n).bytes = BN_bn2bin n := by
  simp only [BN_bn2buf, BUF_MEM.bytes]
  rw [← BN_bn2bin_length n]
  exact List.take_length _

theorem BN_bin2bn_bn2buf (n : Nat) : BN_bin2bn (BN_bn2buf n).bytes = n := by
  rw [BN_bn2buf_bytes, BN_bin2bn_bn2bin]

/-! ## Auxiliary facts on the flag words -/

theorem pubkey_flags (S L B C : Prop) [Decidable S] [Decidable L] [Decidable B]
    [Decidable C] :
    let ret := 0
    let ret := if S then ret ||| DH_CHECK_PUBKEY_TOO_SMALL else ret
    let ret := if L then ret ||| DH_CHECK_PUBKEY_TOO_LARGE else ret
    let ret := if B then ret ||| DH_CHECK_PUBKEY_INVALID else ret
    let ret := if C then ret ||| DH_CHECK_PUBKEY_INVALID else ret
    (ret &&& DH_CHECK_PUBKEY_TOO_SMALL ≠ 0 ↔ S) ∧
    (ret &&& DH_CHECK_PUBKEY_TOO_LARGE ≠ 0 ↔ L) ∧
    (ret &&& DH_CHECK_PUBKEY_INVALID ≠ 0 ↔ (B ∨ C)) ∧
    (ret = 0 ↔ (¬ S ∧ ¬ L ∧ ¬ B ∧ ¬ C)) := by
  by_cases h1 : S <;> by_cases h2 : L <;> by_cases h3 : B <;> by_cases h4 : C <;>
    simp only [h1, h2, h3, h4, if_true, if_false, DH_CHECK_PUBKEY_TOO_SMALL,
      DH_CHECK_PUBKEY_TOO_LARGE, DH_CHECK_PUBKEY_INVALID, or_self, or_true, true_or,
      not_true_eq_false, not_false_eq_true, and_self, and_true, true_and, and_false,
      false_and, iff_true, iff_false] <;>
    decide

theorem pubkeyWord_spec (y p : Nat) (B : Prop) [Decidable B] :
    (pubkeyWord y p B &&& DH_CHECK_PUBKEY_TOO_SMALL ≠ 0 ↔ y ≤ 1) ∧
    (pubkeyWord y p B &&& DH_CHECK_PUBKEY_TOO_LARGE ≠ 0 ↔ y ≥ p - 1) ∧
    (pubkeyWord y p B &&& DH_CHECK_PUBKEY_INVALID ≠ 0 ↔ B) ∧
    (pubkeyWord y p B = 0 ↔ (¬ y ≤ 1 ∧ ¬ y ≥ p - 1 ∧ ¬ B)) := by
  have h := pubkey_flags (y ≤ 1) (y ≥ p - 1) B B
  simp only [or_self, and_self] at h
  exact h

theorem DH_check_pub_key_rfc_no_q (p g y : Nat) (priv : Option Nat) :
    DH_check_pub_key_rfc ⟨p, g, none, some y, priv⟩ = some (pubkeyWord y p False) := by
  simp [DH_check_pub_key_rfc, DH_check_pub_key, pubkeyWord]

theorem DH_check_pub_key_rfc_with_q (p g y qv : Nat) (priv : Option Nat)
    (h : ¬ (p = 0 ∧ qv ≠ 0)) :
    DH_check_pub_key_rfc ⟨p, g, some qv, some y, priv⟩
      = some (pubkeyWord y p (y ^ qv % p ≠ 1)) := by
  simp only [DH_check_pub_key_rfc, DH_check_pub_key, BN_mod_exp, h, if_false, pubkeyWord]

theorem DH_check_pub_key_rfc_zero_modulus (g y qv : Nat) (priv : Option Nat) (h : qv ≠ 0) :
    DH_check_pub_key_rfc ⟨0, g, some qv, some y, priv⟩ = none := by
  simp [DH_check_pub_key_rfc, DH_check_pub_key, BN_mod_exp, h]

/-! ## The claims -/

/-- C1: for a modulus `p >= 3` and any candidate `y`, `DH_check_pub_key_rfc`
returns a flag word in which `DH_CHECK_PUBKEY_TOO_SMALL` is set exactly when
`y < 2` and `DH_CHECK_PUBKEY_TOO_LARGE` exactly when `y > p - 2`; so `0` and `1`
are too small and `p - 1` is too large. -/
theorem DH_check_pub_key_rfc_range (p g y : Nat) (q priv : Option Nat) (hp : 3 ≤ p) :
    ∃ ret, DH_check_pub_key_rfc ⟨p, g, q, some y, priv⟩ = some ret ∧
      (ret &&& DH_CHECK_PUBKEY_TOO_SMALL ≠ 0 ↔ y < 2) ∧
      (ret &&& DH_CHECK_PUBKEY_TOO_LARGE ≠ 0 ↔ y > p - 2) := by
  have hs : y ≤ 1 ↔ y < 2 := by omega
  have hl : y ≥ p - 1 ↔ y > p - 2 := by omega
  cases q with
  | none =>
    refine ⟨_, DH_check_pub_key_rfc_no_q p g y priv, ?_, ?_⟩
    · rw [← hs]; exact (pubkeyWord_spec y p False).1
    · rw [← hl]; exact (pubkeyWord_spec y p False).2.1
  | some qv =>
    refine ⟨_, DH_check_pub_key_rfc_with_q p g y qv priv (by omega), ?_, ?_⟩
    · rw [← hs]; exact (pubkeyWord_spec y p _).1
    · rw [← hl]; exact (pubkeyWord_spec y p _).2.1

theorem DH_check_pub_key_rfc_range_witness :
    (3 : Nat) ≤ 23 ∧
    ∃ ret, DH_check_pub_key_rfc ⟨23, 5, some 11, some 22, none⟩ = some ret ∧
      (ret &&& DH_CHECK_PUBKEY_TOO_SMALL ≠ 0 ↔ 22 < 2) ∧
      (ret &&& DH_CHECK_PUBKEY_TOO_LARGE ≠ 0 ↔ 22 > 23 - 2) :=
  ⟨by decide, DH_check_pub_key_rfc_range 23 5 22 (some 11) none (by decide)⟩

/-- C2: `DH_check_pub_key_rfc` sets `DH_CHECK_PUBKEY_INVALID` if and only if `q`
is present and `y ^ q mod p` is not one; with `q` absent the flag is never set.
The check returns a flag word whenever the modulus is not zero or `q` is
absent. -/
theorem DH_check_pub_key_rfc_subgroup (p g y : Nat) (q priv : Option Nat) :
    ((0 < p ∨ q = none) → ∃ ret, DH_check_pub_key_rfc ⟨p, g, q, some y, priv⟩ = some ret) ∧
    (∀ ret, DH_check_pub_key_rfc ⟨p, g, q, some y, priv⟩ = some ret →
      (ret &&& DH_CHECK_PUBKEY_INVALID ≠ 0 ↔ ∃ qv, q = some qv ∧ y ^ qv % p ≠ 1)) := by
  cases q with
  | none =>
    rw [DH_check_pub_key_rfc_no_q]
    refine ⟨fun _ => ⟨_, rfl⟩, ?_⟩
    intro ret hret
    cases hret
    rw [(pubkeyWord_spec y p False).2.2.1]
    simp
  | some qv =>
    by_cases h : p = 0 ∧ qv ≠ 0
    · obtain ⟨hp, hq⟩ := h
      subst hp
      rw [DH_check_pub_key_rfc_zero_modulus g y qv priv hq]
      simp
    · rw [DH_check_pub_key_rfc_with_q p g y qv priv h]
      refine ⟨fun _ => ⟨_, rfl⟩, ?_⟩
      intro ret hret
      cases hret
      rw [(pubkeyWord_spec y p _).2.2.1]
      simp

theorem DH_check_pub_key_rfc_subgroup_witness :
    (∃ ret, DH_check_pub_key_rfc ⟨23, 5, some 11, some 5, none⟩ = some ret) ∧
    (4 &&& DH_CHECK_PUBKEY_INVALID ≠ 0 ↔ ∃ qv, some 11 = some qv ∧ 5 ^ qv % 23 ≠ 1) :=
  ⟨(DH_check_pub_key_rfc_subgroup 23 5 5 (some 11) none).1 (Or.inl (by decide)),
   (DH_check_pub_key_rfc_subgroup 23 5 5 (some 11) none).2 4 (by decide)⟩

/-- C3: `dh_generate_key` returns a buffer only for a generated public value on
which `DH_check_pub_key_rfc`, under the same parameters, sets no flag, and the
buffer then encodes that value; when the check sets a flag it returns `NULL`;
when the check sets none it does return the buffer. -/
theorem dh_generate_key_validated (key : EVP_PKEY) (gen : Option (Nat × Nat)) :
    (∀ buf, (dh_generate_key key gen).2 = some buf →
      ∃ dh priv pub, key.dh = some dh ∧ gen = some (priv, pub) ∧
        buf = BN_bn2buf pub ∧ BN_bin2bn buf.bytes = pub ∧
        DH_check_pub_key_rfc { dh with priv_key := some priv, pub_key := some pub }
          = some 0) ∧
    (∀ dh priv pub ret, key.dh = some dh → gen = some (priv, pub) →
      DH_check_pub_key_rfc { dh with priv_key := some priv, pub_key := some pub }
        = some ret →
      ret ≠ 0 → (dh_generate_key key gen).2 = none) ∧
    (∀ dh priv pub, key.dh = some dh → gen = some (priv, pub) →
      DH_check_pub_key_rfc { dh with priv_key := some priv, pub_key := some pub }
        = some 0 →
      (dh_generate_key key gen).2 = some (BN_bn2buf pub)) := by
  refine ⟨?_, ?_, ?_⟩
  · intro buf hbuf
    obtain ⟨kd⟩ := key
    cases kd with
    | none => simp [dh_generate_key, EVP_PKEY_get1_DH] at hbuf
    | some dh =>
      cases gen with
      | none => simp [dh_generate_key, EVP_PKEY_get1_DH] at hbuf
      | some pr =>
        obtain ⟨priv, pub⟩ := pr
        refine ⟨dh, priv, pub, rfl, rfl, ?_⟩
        simp only [dh_generate_key, EVP_PKEY_get1_DH] at hbuf
        cases hc : DH_check_pub_key_rfc
            { dh with priv_key := some priv, pub_key := some pub } with
        | none => simp [hc] at hbuf
        | some suc =>
          simp only [hc] at hbuf
          by_cases hs : suc = 0
          · subst hs
            simp only [ne_eq, not_true_eq_false, if_false, Option.some.injEq] at hbuf
            subst hbuf
            exact ⟨rfl, BN_bin2bn_bn2buf pub, rfl⟩
          · simp [hs] at hbuf
  · intro dh priv pub ret hk hg hc hret
    obtain ⟨kd⟩ := key
    simp only at hk
    subst hk hg
    simp [dh_generate_key, EVP_PKEY_get1_DH, hc, hret]
  · intro dh priv pub hk hg hc
    obtain ⟨kd⟩ := key
    simp only at hk
    subst hk hg
    simp [dh_generate_key, EVP_PKEY_get1_DH, hc]

theorem dh_generate_key_validated_witness :
    (dh_generate_key ⟨some ⟨23, 2, some 11, none, none⟩⟩ (some (3, 8))).2
        = some (BN_bn2buf 8) ∧
    (dh_generate_key ⟨some ⟨23, 2, some 11, none, none⟩⟩ (some (1, 22))).2 = none :=
  ⟨(dh_generate_key_validated ⟨some ⟨23, 2, some 11, none, none⟩⟩ (some (3, 8))).2.2
      ⟨23, 2, some 11, none, none⟩ 3 8 rfl rfl (by decide),
   (dh_generate_key_validated ⟨some ⟨23, 2, some 11, none, none⟩⟩ (some (1, 22))).2.1
      ⟨23, 2, some 11, none, none⟩ 1 22 6 rfl rfl (by decide) (by decide)⟩

/-! ## Auxiliary facts on the key agreement -/

theorem DH_check_pub_key_eq_zero_iff (dh : DH) (y : Nat) :
    DH_check_pub_key dh y = some 0 ↔
      (2 ≤ y ∧ y + 2 ≤ dh.p ∧ ∀ qv, dh.q = some qv → y ^ qv % dh.p = 1) := by
  obtain ⟨p, g, q, pub, priv⟩ := dh
  cases q with
  | none =>
    have h := (pubkey_flags (y ≤ 1) (y ≥ p - 1) False False).2.2.2
    simp only [DH_check_pub_key, Option.some.injEq]
    simp only [if_false] at h
    rw [h]
    simp
    omega
  | some qv =>
    by_cases hp : p = 0 ∧ qv ≠ 0
    · obtain ⟨hp0, hq⟩ := hp
      subst hp0
      simp [DH_check_pub_key, BN_mod_exp, hq]
    · have h := (pubkey_flags (y ≤ 1) (y ≥ p - 1) (y ^ qv % p ≠ 1) False).2.2.2
      simp only [DH_check_pub_key, BN_mod_exp, hp, if_false, Option.some.injEq]
      simp only [if_false] at h
      rw [h]
      simp
      omega

theorem DH_check_pub_key_rfc_eq_zero_iff (dh : DH) :
    DH_check_pub_key_rfc dh = some 0 ↔
      ∃ y, dh.pub_key = some y ∧ DH_check_pub_key dh y = some 0 := by
  obtain ⟨p, g, q, pub, priv⟩ := dh
  cases pub with
  | none => simp [DH_check_pub_key_rfc]
  | some y =>
    simp only [Option.some.injEq, exists_eq_left']
    rw [DH_check_pub_key_eq_zero_iff]
    cases q with
    | none =>
      rw [DH_check_pub_key_rfc_no_q, Option.some.injEq, (pubkeyWord_spec y p False).2.2.2]
      simp
      omega
    | some qv =>
      by_cases hp : p = 0 ∧ qv ≠ 0
      · obtain ⟨hp0, hq⟩ := hp
        subst hp0
        rw [DH_check_pub_key_rfc_zero_modulus g y qv priv hq]
        simp
      · rw [DH_check_pub_key_rfc_with_q p g y qv priv hp, Option.some.injEq,
          (pubkeyWord_spec y p _).2.2.2]
        simp
        omega

theorem numBitsAux_le_iff (fuel n k : Nat) (h : n ≤ fuel) :
    numBitsAux fuel n ≤ k ↔ n < 2 ^ k := by
  induction fuel generalizing n k with
  | zero =>
    have h0 : n = 0 := by omega
    subst h0
    simp [numBitsAux]
  | succ f ih =>
    by_cases hn : n = 0
    · subst hn
      simp [numBitsAux]
    · have hdiv : n / 2 ≤ f := by omega
      simp only [numBitsAux, hn, if_false]
      cases k with
      | zero =>
        simp only [pow_zero, Nat.lt_one_iff]
        omega
      | succ j =>
        rw [Nat.add_le_add_iff_right, ih (n / 2) j hdiv, pow_succ]
        omega

theorem BN_num_bits_le_iff (n k : Nat) : BN_num_bits n ≤ k ↔ n < 2 ^ k :=
  numBitsAux_le_iff n n k (Nat.le_refl n)

theorem DH_compute_key_eq (dh : DH) (x y : Nat) (hx : dh.priv_key = some x)
    (hsize : BN_num_bits dh.p ≤ OPENSSL_DH_MAX_MODULUS_BITS) (hodd : dh.p % 2 = 1)
    (hy : DH_check_pub_key dh y = some 0) :
    DH_compute_key y dh = some (BN_bn2bin (y ^ x % dh.p)) := by
  have hs : ¬ BN_num_bits dh.p > OPENSSL_DH_MAX_MODULUS_BITS := by omega
  have he : ¬ dh.p % 2 = 0 := by omega
  simp [DH_compute_key, hx, hy, BN_mod_exp_mont, hs, he]

theorem DH_compute_key_some (dh : DH) (x y : Nat) (w : List Nat)
    (hx : dh.priv_key = some x) (h : DH_compute_key y dh = some w) :
    BN_num_bits dh.p ≤ OPENSSL_DH_MAX_MODULUS_BITS ∧ dh.p % 2 = 1 ∧
    DH_check_pub_key dh y = some 0 ∧ w = BN_bn2bin (y ^ x % dh.p) := by
  by_cases hs : BN_num_bits dh.p > OPENSSL_DH_MAX_MODULUS_BITS
  · simp [DH_compute_key, hs] at h
  · by_cases he : dh.p % 2 = 0
    · simp [DH_compute_key, hs, hx, he] at h
    · cases hc : DH_check_pub_key dh y with
      | none => simp [DH_compute_key, hs, hx, he, hc] at h
      | some r =>
        by_cases hr : r = 0
        · subst hr
          have hsz : BN_num_bits dh.p ≤ OPENSSL_DH_MAX_MODULUS_BITS := by omega
          have hodd : dh.p % 2 = 1 := by omega
          rw [DH_compute_key_eq dh x y hx hsz hodd hc] at h
          exact ⟨hsz, hodd, rfl, (Option.some.inj h).symm⟩
        · simp [DH_compute_key, hs, hx, he, hc, hr] at h

theorem DH_compute_key_refuses (dh : DH) (y : Nat) (hy : y ≤ 1 ∨ y ≥ dh.p - 1) :
    DH_compute_key y dh = none := by
  cases hd : DH_compute_key y dh with
  | none => rfl
  | some w =>
    cases hx : dh.priv_key with
    | none => simp [DH_compute_key, hx] at hd
    | some x =>
      have hc := (DH_compute_key_some dh x y w hx hd).2.2.1
      have := (DH_check_pub_key_eq_zero_iff dh y).mp hc
      omega

theorem dh_compute_key_of_check (dh : DH) (x : Nat) (inp : BUF_MEM) (hx : dh.priv_key = some x)
    (hsize : BN_num_bits dh.p ≤ OPENSSL_DH_MAX_MODULUS_BITS) (hodd : dh.p % 2 = 1)
    (hy : DH_check_pub_key dh (BN_bin2bn inp.bytes) = some 0) :
    dh_compute_key ⟨some dh⟩ inp =
      some { length := (BN_bn2bin (BN_bin2bn inp.bytes ^ x % dh.p)).length,
             data := BN_bn2bin (BN_bin2bn inp.bytes ^ x % dh.p) ++
               (BUF_MEM_create (DH_size dh)).data.drop
                 (BN_bn2bin (BN_bin2bn inp.bytes ^ x % dh.p)).length } := by
  simp [dh_compute_key, EVP_PKEY_get1_DH, DH_compute_key_eq dh x _ hx hsize hodd hy]

theorem dh_compute_key_result (dh : DH) (x : Nat) (inp out : BUF_MEM)
    (hx : dh.priv_key = some x) (h : dh_compute_key ⟨some dh⟩ inp = some out) :
    DH_check_pub_key dh (BN_bin2bn inp.bytes) = some 0 ∧
    out.length = BN_num_bytes (BN_bin2bn inp.bytes ^ x % dh.p) ∧
    out.bytes = BN_bn2bin (BN_bin2bn inp.bytes ^ x % dh.p) := by
  cases hd : DH_compute_key (BN_bin2bn inp.bytes) dh with
  | none => simp [dh_compute_key, EVP_PKEY_get1_DH, hd] at h
  | some w =>
    obtain ⟨hsize, hodd, hc, _⟩ := DH_compute_key_some dh x _ w hx hd
    rw [dh_compute_key_of_check dh x inp hx hsize hodd hc] at h
    cases h
    refine ⟨hc, BN_bn2bin_length _, ?_⟩
    simp [BUF_MEM.bytes]

theorem dh_compute_key_isSome (dh : DH) (inp : BUF_MEM) :
    (dh_compute_key ⟨some dh⟩ inp).isSome = (DH_compute_key (BN_bin2bn inp.bytes) dh).isSome := by
  simp only [dh_compute_key, EVP_PKEY_get1_DH]
  cases DH_compute_key (BN_bin2bn inp.bytes) dh <;> rfl

/-- C4 (as the code has it): Diffie-Hellman symmetry for the moduli on which the
library's `DH_compute_key` exponentiates, the odd ones of at most
`OPENSSL_DH_MAX_MODULUS_BITS` bits. When the public values `g ^ a mod p` and
`g ^ b mod p` both pass `DH_check_pub_key_rfc`, `dh_compute_key` with the private
value `a` on the encoding of `g ^ b mod p` and with `b` on the encoding of
`g ^ a mod p` both succeed and return the same buffer, which decodes to
`g ^ (a * b) mod p`. -/
theorem dh_compute_key_symmetric (p g a b : Nat) (q : Option Nat)
    (hodd : p % 2 = 1) (hsize : BN_num_bits p ≤ OPENSSL_DH_MAX_MODULUS_BITS)
    (hA : DH_check_pub_key_rfc ⟨p, g, q, some (g ^ a % p), some a⟩ = some 0)
    (hB : DH_check_pub_key_rfc ⟨p, g, q, some (g ^ b % p), some b⟩ = some 0) :
    ∃ out,
      dh_compute_key ⟨some ⟨p, g, q, some (g ^ a % p), some a⟩⟩ (BN_bn2buf (g ^ b % p))
        = some out ∧
      dh_compute_key ⟨some ⟨p, g, q, some (g ^ b % p), some b⟩⟩ (BN_bn2buf (g ^ a % p))
        = some out ∧
      BN_bin2bn out.bytes = g ^ (a * b) % p := by
  obtain ⟨yA, hyA, hcA⟩ := (DH_check_pub_key_rfc_eq_zero_iff _).mp hA
  obtain ⟨yB, hyB, hcB⟩ := (DH_check_pub_key_rfc_eq_zero_iff _).mp hB
  simp only [Option.some.injEq] at hyA hyB
  subst hyA hyB
  have hcA2 : DH_check_pub_key ⟨p, g, q, some (g ^ b % p), some b⟩
      (BN_bin2bn (BN_bn2buf (g ^ a % p)).bytes) = some 0 := by
    rw [BN_bin2bn_bn2buf]
    exact hcA
  have hcB2 : DH_check_pub_key ⟨p, g, q, some (g ^ a % p), some a⟩
      (BN_bin2bn (BN_bn2buf (g ^ b % p)).bytes) = some 0 := by
    rw [BN_bin2bn_bn2buf]
    exact hcB
  have e1 := dh_compute_key_of_check _ a _ rfl hsize hodd hcB2
  have e2 := dh_compute_key_of_check _ b _ rfl hsize hodd hcA2
  have hsym : (g ^ b % p) ^ a % p = (g ^ a % p) ^ b % p := by
    rw [← Nat.pow_mod, ← Nat.pow_mod, ← pow_mul, ← pow_mul, Nat.mul_comm]
  have hab : (g ^ a % p) ^ b % p = g ^ (a * b) % p := by
    rw [← Nat.pow_mod, ← pow_mul]
  simp only [BN_bin2bn_bn2buf] at e1 e2
  rw [hsym] at e1
  refine ⟨_, e1, e2, ?_⟩
  simp only [BUF_MEM.bytes, List.take_left', BN_bin2bn_bn2bin]
  exact hab

theorem dh_compute_key_symmetric_witness :
    ∃ out,
      dh_compute_key ⟨some ⟨2 ^ 521 - 1, 2, some 521, some (2 ^ 3 % (2 ^ 521 - 1)), some 3⟩⟩
        (BN_bn2buf (2 ^ 5 % (2 ^ 521 - 1))) = some out ∧
      dh_compute_key ⟨some ⟨2 ^ 521 - 1, 2, some 521, some (2 ^ 5 % (2 ^ 521 - 1)), some 5⟩⟩
        (BN_bn2buf (2 ^ 3 % (2 ^ 521 - 1))) = some out ∧
      BN_bin2bn out.bytes = 2 ^ (3 * 5) % (2 ^ 521 - 1) :=
  dh_compute_key_symmetric (2 ^ 521 - 1) 2 3 5 (some 521) (by decide!)
    (by decide!) (by decide!) (by decide!)

/-- C4 (counterexample): the public value `2 = 2 ^ 1 mod p` passes
`DH_check_pub_key_rfc` for the even modulus `p = 2 ^ 521` and for the modulus
`p = 2 ^ 10000 + 1` of 10001 bits, with `g = 2` and no `q`; yet `dh_compute_key`
with the private value `1` on the encoding of that public value returns `NULL`
in both cases. -/
theorem dh_compute_key_modulus_refused :
    (DH_check_pub_key_rfc ⟨2 ^ 521, 2, none, some (2 ^ 1 % 2 ^ 521), some 1⟩ = some 0 ∧
      dh_compute_key ⟨some ⟨2 ^ 521, 2, none, some (2 ^ 1 % 2 ^ 521), some 1⟩⟩
        (BN_bn2buf (2 ^ 1 % 2 ^ 521)) = none) ∧
    (DH_check_pub_key_rfc
        ⟨2 ^ 10000 + 1, 2, none, some (2 ^ 1 % (2 ^ 10000 + 1)), some 1⟩ = some 0 ∧
      dh_compute_key
        ⟨some ⟨2 ^ 10000 + 1, 2, none, some (2 ^ 1 % (2 ^ 10000 + 1)), some 1⟩⟩
        (BN_bn2buf (2 ^ 1 % (2 ^ 10000 + 1))) = none) := by
  decide!

/-- C5 (as the code has it): a successful `dh_compute_key` returns a buffer
whose length is the minimal byte length of `peer ^ priv mod p` and whose content
is the minimal big-endian encoding of that value, without padding; the length is
at most the byte length of `p`. -/
theorem dh_compute_key_minimal_length (dh : DH) (x : Nat) (inp out : BUF_MEM)
    (hx : dh.priv_key = some x) (h : dh_compute_key ⟨some dh⟩ inp = some out) :
    out.length = BN_num_bytes (BN_bin2bn inp.bytes ^ x % dh.p) ∧
    out.bytes = BN_bn2bin (BN_bin2bn inp.bytes ^ x % dh.p) ∧
    out.length ≤ DH_size dh := by
  obtain ⟨hc, hlen, hbytes⟩ := dh_compute_key_result dh x inp out hx h
  refine ⟨hlen, hbytes, ?_⟩
  rw [hlen]
  have hp : 0 < dh.p := by
    have := ((DH_check_pub_key_eq_zero_iff dh _).mp hc).2.1
    omega
  exact BN_num_bytes_mono _ _ (Nat.le_of_lt (Nat.mod_lt _ hp))

theorem dh_compute_key_minimal_length_witness :
    (⟨1, [255, 0]⟩ : BUF_MEM).length = BN_num_bytes (BN_bin2bn [2] ^ 9 % 257) ∧
    (⟨1, [255, 0]⟩ : BUF_MEM).bytes = BN_bn2bin (BN_bin2bn [2] ^ 9 % 257) ∧
    (⟨1, [255, 0]⟩ : BUF_MEM).length ≤ DH_size ⟨257, 3, none, none, some 9⟩ :=
  dh_compute_key_minimal_length ⟨257, 3, none, none, some 9⟩ 9 ⟨1, [2]⟩ ⟨1, [255, 0]⟩
    rfl (by decide)

/-- C5 (counterexample): with `p = 257`, which has two bytes, the private value
`9` and the peer value `2`, the call succeeds with a buffer of length one holding
the single byte `255`: its length is not the byte length of `p` and it is not
left-padded. -/
theorem dh_compute_key_not_padded :
    dh_compute_key ⟨some ⟨257, 3, none, none, some 9⟩⟩ ⟨1, [2]⟩ = some ⟨1, [255, 0]⟩ ∧
    (⟨1, [255, 0]⟩ : BUF_MEM).bytes = [255] ∧
    DH_size ⟨257, 3, none, none, some 9⟩ = 2 := by
  decide

/-- C6 (as the code has it): `dh_compute_key` performs no validation of the
peer value of its own: it succeeds exactly when the library's `DH_compute_key`
does on the decoded peer value, and whenever it succeeds its output decodes to
`peer ^ x mod p`. It does not succeed on every peer value. -/
theorem dh_compute_key_no_own_check (dh : DH) (x : Nat) (inp : BUF_MEM)
    (hx : dh.priv_key = some x) :
    (dh_compute_key ⟨some dh⟩ inp).isSome
      = (DH_compute_key (BN_bin2bn inp.bytes) dh).isSome ∧
    (∀ out, dh_compute_key ⟨some dh⟩ inp = some out →
      BN_bin2bn out.bytes = BN_bin2bn inp.bytes ^ x % dh.p) := by
  refine ⟨dh_compute_key_isSome dh inp, ?_⟩
  intro out hout
  rw [(dh_compute_key_result dh x inp out hx hout).2.2, BN_bin2bn_bn2bin]

theorem dh_compute_key_no_own_check_witness :
    (dh_compute_key ⟨some exampleKey521⟩ (BN_bn2buf 4)).isSome = true ∧
    (∀ out, dh_compute_key ⟨some exampleKey521⟩ (BN_bn2buf 4) = some out →
      BN_bin2bn out.bytes = BN_bin2bn (BN_bn2buf 4).bytes ^ 3 % exampleKey521.p) :=
  ⟨by decide!, (dh_compute_key_no_own_check exampleKey521 3 (BN_bn2buf 4) rfl).2⟩

/-- C6 (counterexample): with the key `exampleKey521` (prime modulus
`p = 2 ^ 521 - 1`, `g = 2`, `q = 521`, private value `3`), `dh_compute_key`
returns `NULL` on the encodings of the peer values `0`, `1` and `p - 1`. -/
theorem dh_compute_key_refuses_peer :
    dh_compute_key ⟨some exampleKey521⟩ (BN_bn2buf 0) = none ∧
    dh_compute_key ⟨some exampleKey521⟩ (BN_bn2buf 1) = none ∧
    dh_compute_key ⟨some exampleKey521⟩ (BN_bn2buf (2 ^ 521 - 2)) = none := by
  decide!

/-- C7: `DH_get_q` agrees with the reference `derive_subgroup_order_ref` on every
parameter set: it returns the candidate (`q` when present, `(p - 1) / 2` when
absent) when that is prime and fails otherwise. So a known prime `q` is returned
as it is, a withheld `q` gives `(p - 1) / 2`, and every value returned is
prime. -/
theorem DH_get_q_refines (dh : DH) :
    DH_get_q dh = (derive_subgroup_order_ref dh).toOption ∧
    (∀ q, dh.q = some q → Nat.Prime q → DH_get_q dh = some q) ∧
    (∀ r, dh.q = none → DH_get_q dh = some r → r = (dh.p - 1) / 2) ∧
    (dh.q = none → Nat.Prime ((dh.p - 1) / 2) → DH_get_q dh = some ((dh.p - 1) / 2)) ∧
    (∀ r, DH_get_q dh = some r → Nat.Prime r) := by
  obtain ⟨p, g, q, pub, priv⟩ := dh
  cases q with
  | none =>
    by_cases hc : Nat.Prime ((p - 1) / 2)
    · simp [DH_get_q, derive_subgroup_order_ref, BN_is_prime_ex, hc, Except.toOption]
    · simp [DH_get_q, derive_subgroup_order_ref, BN_is_prime_ex, hc, Except.toOption]
  | some qv =>
    by_cases hc : Nat.Prime qv
    · simp [DH_get_q, derive_subgroup_order_ref, BN_is_prime_ex, hc, Except.toOption]
    · simp [DH_get_q, derive_subgroup_order_ref, BN_is_prime_ex, hc, Except.toOption]

theorem DH_get_q_refines_witness :
    DH_get_q ⟨23, 2, some 11, none, none⟩ = some 11 ∧
    DH_get_q ⟨23, 2, none, none, none⟩ = some ((23 - 1) / 2) :=
  ⟨(DH_get_q_refines ⟨23, 2, some 11, none, none⟩).2.1 11 rfl (by norm_num),
   (DH_get_q_refines ⟨23, 2, none, none, none⟩).2.2.2.1 rfl (by norm_num)⟩

/-- C8: on parameters with a non-zero modulus on which `DH_get_q` yields `q`,
`DH_get_order` returns `q - 1` if `g ^ (q - 1) mod p = 1`, otherwise `p - 1` if
`g ^ (p - 1) mod p = 1`, otherwise fails; it returns nothing but `q - 1` or
`p - 1`, and every `r` it returns satisfies `g ^ r mod p = 1`. -/
theorem DH_get_order_refines (dh : DH) (q : Nat) (hq : DH_get_q dh = some q)
    (hp : 0 < dh.p) :
    DH_get_order dh = (derive_generator_order_ref dh q).toOption ∧
    (dh.g ^ (q - 1) % dh.p = 1 → DH_get_order dh = some (q - 1)) ∧
    (dh.g ^ (q - 1) % dh.p ≠ 1 → dh.g ^ (dh.p - 1) % dh.p = 1 →
      DH_get_order dh = some (dh.p - 1)) ∧
    (dh.g ^ (q - 1) % dh.p ≠ 1 → dh.g ^ (dh.p - 1) % dh.p ≠ 1 →
      DH_get_order dh = none) ∧
    (∀ r, DH_get_order dh = some r →
      (r = q - 1 ∨ r = dh.p - 1) ∧ dh.g ^ r % dh.p = 1) := by
  have hp0 : ¬ dh.p = 0 := by omega
  by_cases h1 : dh.g ^ (q - 1) % dh.p = 1
  · simp [DH_get_order, derive_generator_order_ref, hq, BN_mod_exp, hp0, h1,
      Except.toOption]
  · by_cases h2 : dh.g ^ (dh.p - 1) % dh.p = 1
    · simp [DH_get_order, derive_generator_order_ref, hq, BN_mod_exp, hp0, h1, h2,
        Except.toOption]
    · simp [DH_get_order, derive_generator_order_ref, hq, BN_mod_exp, hp0, h1, h2,
        Except.toOption]

theorem DH_get_order_refines_witness :
    DH_get_order ⟨23, 2, some 11, none, none⟩ = some (23 - 1) ∧
    DH_get_order ⟨7, 6, some 3, none, none⟩ = some (3 - 1) ∧
    DH_get_order ⟨9, 3, some 3, none, none⟩ = none :=
  ⟨(DH_get_order_refines ⟨23, 2, some 11, none, none⟩ 11
      (by simp [DH_get_q, BN_is_prime_ex]; norm_num) (by decide)).2.2.1
      (by decide) (by decide),
   (DH_get_order_refines ⟨7, 6, some 3, none, none⟩ 3
      (by simp [DH_get_q, BN_is_prime_ex]; norm_num) (by decide)).2.1 (by decide),
   (DH_get_order_refines ⟨9, 3, some 3, none, none⟩ 3
      (by simp [DH_get_q, BN_is_prime_ex]; norm_num) (by decide)).2.2.2.1
      (by decide) (by decide)⟩

/-- C9 (as the code has it): `DHparams_dup_with_q` applied to parameters that
lack `q` returns parameters with the same `p` and the same `g` in which `q` is
still absent; `DH_get_q` is not consulted. -/
theorem DHparams_dup_with_q_absent (dh : DH) (hq : dh.q = none) :
    (DHparams_dup_with_q dh).q = none ∧
    (DHparams_dup_with_q dh).p = dh.p ∧
    (DHparams_dup_with_q dh).g = dh.g := by
  simp [DHparams_dup_with_q, DHparams_dup, DH_set0_pqg, BN_dup, hq]

theorem DHparams_dup_with_q_absent_witness :
    (DHparams_dup_with_q ⟨23, 2, none, none, none⟩).q = none ∧
    (DHparams_dup_with_q ⟨23, 2, none, none, none⟩).p = 23 ∧
    (DHparams_dup_with_q ⟨23, 2, none, none, none⟩).g = 2 :=
  DHparams_dup_with_q_absent ⟨23, 2, none, none, none⟩ rfl

/-- C9 (counterexample): for `p = 23`, `g = 2` without `q`, `DH_get_q` computes
`(p - 1) / 2 = 11`, yet the duplicate has no `q`. -/
theorem DHparams_dup_with_q_not_derived :
    DH_get_q ⟨23, 2, none, none, none⟩ = some 11 ∧
    (DHparams_dup_with_q ⟨23, 2, none, none, none⟩).q = none ∧
    (DHparams_dup_with_q ⟨23, 2, none, none, none⟩).q ≠ DH_get_q ⟨23, 2, none, none, none⟩ := by
  have h : DH_get_q ⟨23, 2, none, none, none⟩ = some 11 := by
    have hprime : Nat.Prime 11 := by norm_num
    simp [DH_get_q, BN_is_prime_ex, hprime]
  refine ⟨h, rfl, ?_⟩
  rw [h]
  simp [DHparams_dup_with_q, DHparams_dup, DH_set0_pqg, BN_dup]

/-! ## Auxiliary facts on the structural flags -/

theorem ignored_mask_zero_iff (f : Nat) (h32 : f < 2 ^ 32) :
    (f % 2 ^ 32 &&& (2 ^ 32 - 1 - DH_CHECK_P_NOT_SAFE_PRIME)
        &&& (2 ^ 32 - 1 - DH_UNABLE_TO_CHECK_GENERATOR) = 0) ↔
      ∀ k, f.testBit k = true → (k = 1 ∨ k = 2) := by
  rw [Nat.mod_eq_of_lt h32]
  simp only [DH_CHECK_P_NOT_SAFE_PRIME, DH_UNABLE_TO_CHECK_GENERATOR]
  constructor
  · intro h k hk
    by_contra hne
    have hk32 : k < 32 := by
      by_contra hge
      have hle : 2 ^ 32 ≤ 2 ^ k := Nat.pow_le_pow_right (by decide) (by omega)
      have := Nat.testBit_lt_two_pow (Nat.lt_of_lt_of_le h32 hle)
      rw [this] at hk
      exact Bool.false_ne_true hk
    have hbit : (f &&& (2 ^ 32 - 1 - 2) &&& (2 ^ 32 - 1 - 4)).testBit k = true := by
      rw [Nat.testBit_and, Nat.testBit_and, hk]
      have hk1 : k ≠ 1 := fun e => hne (Or.inl e)
      have hk2 : k ≠ 2 := fun e => hne (Or.inr e)
      interval_cases k <;> first | exact absurd rfl hk1 | exact absurd rfl hk2 | decide
    rw [h] at hbit
    simp at hbit
  · intro h
    apply Nat.eq_of_testBit_eq
    intro k
    rw [Nat.testBit_and, Nat.testBit_and, Nat.zero_testBit]
    cases hk : f.testBit k with
    | false => rfl
    | true =>
      rcases h k hk with h1 | h2
      · subst h1
        decide
      · subst h2
        decide

theorem only_ignored_bits_iff (f : Nat) :
    (∀ k, f.testBit k = true → (k = 1 ∨ k = 2)) ↔
      (f = 0 ∨ f = DH_CHECK_P_NOT_SAFE_PRIME ∨ f = DH_UNABLE_TO_CHECK_GENERATOR ∨
        f = DH_CHECK_P_NOT_SAFE_PRIME ||| DH_UNABLE_TO_CHECK_GENERATOR) := by
  simp only [DH_CHECK_P_NOT_SAFE_PRIME, DH_UNABLE_TO_CHECK_GENERATOR]
  constructor
  · intro h
    have hand : f &&& 6 = f := by
      apply Nat.eq_of_testBit_eq
      intro k
      rw [Nat.testBit_and]
      cases hk : f.testBit k with
      | false => rfl
      | true =>
        rcases h k hk with h1 | h2
        · subst h1
          decide
        · subst h2
          decide
    have hle : f ≤ 6 := by
      rw [← hand]
      exact Nat.and_le_right
    have h0 : f.testBit 0 = false := by
      cases hk : f.testBit 0 with
      | false => rfl
      | true =>
        rcases h 0 hk with h1 | h2
        · exact absurd h1 (by decide)
        · exact absurd h2 (by decide)
    rw [Nat.testBit_zero] at h0
    have hodd : ¬ f % 2 = 1 := by simpa using h0
    have h246 : (2 ||| 4 : Nat) = 6 := by decide
    rw [h246]
    omega
  · intro h k hk
    rcases h with h | h | h | h <;> subst h
    · simp at hk
    · by_contra hne
      have hk3 : k < 3 ∨ 3 ≤ k := by omega
      rcases hk3 with hlt | hge
      · interval_cases k <;> simp_all
      · have hle : 2 ^ 3 ≤ 2 ^ k := Nat.pow_le_pow_right (by decide) hge
        have := Nat.testBit_lt_two_pow (Nat.lt_of_lt_of_le (by decide : 2 < 2 ^ 3) hle)
        rw [this] at hk
        exact Bool.false_ne_true hk
    · by_contra hne
      have hk3 : k < 3 ∨ 3 ≤ k := by omega
      rcases hk3 with hlt | hge
      · interval_cases k <;> simp_all
      · have hle : 2 ^ 3 ≤ 2 ^ k := Nat.pow_le_pow_right (by decide) hge
        have := Nat.testBit_lt_two_pow (Nat.lt_of_lt_of_le (by decide : 4 < 2 ^ 3) hle)
        rw [this] at hk
        exact Bool.false_ne_true hk
    · by_contra hne
      have hk3 : k < 3 ∨ 3 ≤ k := by omega
      rcases hk3 with hlt | hge
      · interval_cases k <;> simp_all
      · have hle : 2 ^ 3 ≤ 2 ^ k := Nat.pow_le_pow_right (by decide) hge
        have := Nat.testBit_lt_two_pow
          (Nat.lt_of_lt_of_le (by decide : (2 ||| 4 : Nat) < 2 ^ 3) hle)
        rw [this] at hk
        exact Bool.false_ne_true hk

/-- C10: when the structural check reports the flag word `f` (a 32-bit `int`) on
the resolved parameters, `init_dh` succeeds if and only if `f` has no bit set
other than those of `DH_CHECK_P_NOT_SAFE_PRIME` and
`DH_UNABLE_TO_CHECK_GENERATOR`, that is, if and only if `f` is empty, one of the
two, or both together; any other flag, alone or combined with them, makes it
fail, that is, return `0` with the slot as it was. -/
theorem init_dh_accepts_iff (DH_check : DH → Option Nat) (dh : Option DH) (num : Int)
    (tmp : DH) (f : Nat)
    (hres : (match dh with
      | none => get_rfc5114_modp DH_check num
      | some d => Outcome.returns (some d)) = Outcome.returns (some tmp))
    (hf : DH_check tmp = some f) (h32 : f < 2 ^ 32) :
    (init_dh DH_check dh num = Outcome.returns (some tmp, true) ↔
      ∀ k, f.testBit k = true → (k = 1 ∨ k = 2)) ∧
    (init_dh DH_check dh num = Outcome.returns (some tmp, true) ↔
      (f = 0 ∨ f = DH_CHECK_P_NOT_SAFE_PRIME ∨ f = DH_UNABLE_TO_CHECK_GENERATOR ∨
        f = DH_CHECK_P_NOT_SAFE_PRIME ||| DH_UNABLE_TO_CHECK_GENERATOR)) ∧
    (init_dh DH_check dh num = Outcome.returns (some tmp, true) ∨
      init_dh DH_check dh num = Outcome.returns (dh, false)) := by
  have hrun : init_dh DH_check dh num =
      if f % 2 ^ 32 &&& (2 ^ 32 - 1 - DH_CHECK_P_NOT_SAFE_PRIME)
          &&& (2 ^ 32 - 1 - DH_UNABLE_TO_CHECK_GENERATOR) = 0
      then Outcome.returns (some tmp, true) else Outcome.returns (dh, false) := by
    simp only [init_dh, hres, hf]
  have key : init_dh DH_check dh num = Outcome.returns (some tmp, true) ↔
      (f % 2 ^ 32 &&& (2 ^ 32 - 1 - DH_CHECK_P_NOT_SAFE_PRIME)
        &&& (2 ^ 32 - 1 - DH_UNABLE_TO_CHECK_GENERATOR) = 0) := by
    rw [hrun]
    split <;> simp_all
  refine ⟨?_, ?_, ?_⟩
  · rw [key, ignored_mask_zero_iff f h32]
  · rw [← only_ignored_bits_iff, key, ignored_mask_zero_iff f h32]
  · rw [hrun]
    split
    · exact Or.inl rfl
    · exact Or.inr rfl

theorem init_dh_accepts_iff_witness :
    init_dh (fun _ => some 6) (some ⟨23, 2, some 11, none, none⟩) 7
      = Outcome.returns (some ⟨23, 2, some 11, none, none⟩, true) ∧
    ¬ init_dh (fun _ => some 3) (some ⟨23, 2, some 11, none, none⟩) 7
      = Outcome.returns (some ⟨23, 2, some 11, none, none⟩, true) ∧
    init_dh (fun _ => some 6) none 0
      = Outcome.returns (some ⟨BN_bin2bn rfc_5114_modp_1_p, BN_bin2bn rfc_5114_modp_1_g,
          some (BN_bin2bn rfc_5114_modp_1_q), none, none⟩, true) :=
  ⟨(init_dh_accepts_iff (fun _ => some 6) (some ⟨23, 2, some 11, none, none⟩) 7
      ⟨23, 2, some 11, none, none⟩ 6 rfl rfl (by decide)).2.1.mpr
      (Or.inr (Or.inr (Or.inr (by decide)))),
   fun h => absurd
     ((init_dh_accepts_iff (fun _ => some 3) (some ⟨23, 2, some 11, none, none⟩) 7
        ⟨23, 2, some 11, none, none⟩ 3 rfl rfl (by decide)).2.1.mp h)
     (by decide),
   (init_dh_accepts_iff (fun _ => some 6) none 0
      ⟨BN_bin2bn rfc_5114_modp_1_p, BN_bin2bn rfc_5114_modp_1_g,
        some (BN_bin2bn rfc_5114_modp_1_q), none, none⟩ 6 rfl rfl (by decide)).2.1.mpr
      (Or.inr (Or.inr (Or.inr (by decide))))⟩

/-! ## Auxiliary facts on the registry groups -/

theorem powModAux_modEq (fuel b e m acc : Nat) (he : e < 2 ^ fuel) :
    Nat.ModEq m (powModAux fuel b e m acc) (acc * b ^ e) := by
  induction fuel generalizing b e acc with
  | zero =>
    have h0 : e = 0 := by simpa using he
    subst h0
    simp [powModAux, Nat.ModEq]
  | succ f ih =>
    by_cases h0 : e = 0
    · subst h0
      simp [powModAux, Nat.ModEq]
    · have hhalf : e / 2 < 2 ^ f := by
        rw [pow_succ] at he
        omega
      simp only [powModAux, h0, if_false]
      refine (ih (b * b % m) (e / 2) _ hhalf).trans ?_
      have hsq : Nat.ModEq m ((b * b % m) ^ (e / 2)) ((b * b) ^ (e / 2)) :=
        (Nat.mod_modEq (b * b) m).pow (e / 2)
      have hsplit : b ^ e = (b * b) ^ (e / 2) * b ^ (e % 2) := by
        rw [← pow_two, ← pow_mul, ← pow_add, Nat.div_add_mod]
      rw [hsplit]
      by_cases hodd : e % 2 = 1
      · simp only [hodd, if_true, pow_one]
        have hacc : Nat.ModEq m (acc * b % m) (acc * b) := Nat.mod_modEq _ _
        have := hacc.mul hsq
        refine this.trans ?_
        rw [Nat.mul_assoc, Nat.mul_comm b]
      · have heven : e % 2 = 0 := by omega
        simp only [heven, if_false, pow_zero, Nat.mul_one]
        exact (Nat.ModEq.refl acc).mul hsq

theorem pow_mod_eq_one_of_powModAux (fuel b e m : Nat) (he : e < 2 ^ fuel) (hm : 1 < m)
    (h : powModAux fuel b e m 1 = 1) : b ^ e % m = 1 := by
  have := powModAux_modEq fuel b e m 1 he
  rw [h, Nat.one_mul] at this
  unfold Nat.ModEq at this
  rw [← this]
  exact Nat.mod_eq_of_lt hm

set_option maxRecDepth 100000 in
theorem rfc_5114_modp_1_power :
    BN_bin2bn rfc_5114_modp_1_g ^ BN_bin2bn rfc_5114_modp_1_q
      % BN_bin2bn rfc_5114_modp_1_p = 1 :=
  pow_mod_eq_one_of_powModAux 160 _ _ _ (by decide) (by decide) (by decide)

set_option maxRecDepth 100000 in
theorem rfc_5114_modp_2_power :
    BN_bin2bn rfc_5114_modp_2_g ^ BN_bin2bn rfc_5114_modp_2_q
      % BN_bin2bn rfc_5114_modp_2_p = 1 :=
  pow_mod_eq_one_of_powModAux 224 _ _ _ (by decide) (by decide) (by decide)

set_option maxRecDepth 100000 in
theorem rfc_5114_modp_3_power :
    BN_bin2bn rfc_5114_modp_3_g ^ BN_bin2bn rfc_5114_modp_3_q
      % BN_bin2bn rfc_5114_modp_3_p = 1 :=
  pow_mod_eq_one_of_powModAux 256 _ _ _ (by decide) (by decide) (by decide)

/-- C11: in each of the three registry groups, the tables of `eac_dh.c` decoded
as big-endian unsigned integers, `g ^ q mod p = 1`; hence every `DH` object that
`get_rfc5114_modp` returns has a `q` with `g ^ q mod p = 1`. -/
theorem get_rfc5114_modp_generator_order :
    BN_bin2bn rfc_5114_modp_1_g ^ BN_bin2bn rfc_5114_modp_1_q
      % BN_bin2bn rfc_5114_modp_1_p = 1 ∧
    BN_bin2bn rfc_5114_modp_2_g ^ BN_bin2bn rfc_5114_modp_2_q
      % BN_bin2bn rfc_5114_modp_2_p = 1 ∧
    BN_bin2bn rfc_5114_modp_3_g ^ BN_bin2bn rfc_5114_modp_3_q
      % BN_bin2bn rfc_5114_modp_3_p = 1 ∧
    (∀ (DH_check : DH → Option Nat) (num : Int) (dh : DH),
      get_rfc5114_modp DH_check num = Outcome.returns (some dh) →
        ∃ q, dh.q = some q ∧ dh.g ^ q % dh.p = 1) := by
  refine ⟨rfc_5114_modp_1_power, rfc_5114_modp_2_power, rfc_5114_modp_3_power, ?_⟩
  intro DH_check num dh h
  obtain ⟨p, g, q, pub, priv⟩ := dh
  unfold get_rfc5114_modp at h
  by_cases h0 : num = 0
  · simp only [h0, if_true] at h
    split at h
    · exact absurd h (by simp)
    · split at h
      · exact absurd h (by simp)
      · simp only [Outcome.returns.injEq, Option.some.injEq, DH.mk.injEq] at h
        obtain ⟨hp, hg, hq, _, _⟩ := h
        refine ⟨BN_bin2bn rfc_5114_modp_1_q, hq.symm, ?_⟩
        show g ^ _ % p = 1
        rw [← hp, ← hg]
        exact rfc_5114_modp_1_power
  · by_cases h1 : num = 1
    · simp only [h1, if_true, one_ne_zero, if_false] at h
      split at h
      · exact absurd h (by simp)
      · split at h
        · exact absurd h (by simp)
        · simp only [Outcome.returns.injEq, Option.some.injEq, DH.mk.injEq] at h
          obtain ⟨hp, hg, hq, _, _⟩ := h
          refine ⟨BN_bin2bn rfc_5114_modp_2_q, hq.symm, ?_⟩
          show g ^ _ % p = 1
          rw [← hp, ← hg]
          exact rfc_5114_modp_2_power
    · by_cases h2 : num = 2
      · simp only [h2, if_true, OfNat.ofNat_ne_zero, OfNat.ofNat_ne_one, if_false] at h
        split at h
        · exact absurd h (by simp)
        · split at h
          · exact absurd h (by simp)
          · simp only [Outcome.returns.injEq, Option.some.injEq, DH.mk.injEq] at h
            obtain ⟨hp, hg, hq, _, _⟩ := h
            refine ⟨BN_bin2bn rfc_5114_modp_3_q, hq.symm, ?_⟩
            show g ^ _ % p = 1
            rw [← hp, ← hg]
            exact rfc_5114_modp_3_power
      · simp only [h0, h1, h2, if_false] at h
        exact absurd h (by simp)

theorem get_rfc5114_modp_generator_order_witness :
    ∃ q, some (BN_bin2bn rfc_5114_modp_1_q) = some q ∧
      BN_bin2bn rfc_5114_modp_1_g ^ q % BN_bin2bn rfc_5114_modp_1_p = 1 :=
  get_rfc5114_modp_generator_order.2.2.2 (fun _ => some 6) 0
    ⟨BN_bin2bn rfc_5114_modp_1_p, BN_bin2bn rfc_5114_modp_1_g,
      some (BN_bin2bn rfc_5114_modp_1_q), none, none⟩ rfl

/-! ## Auxiliary facts on the multiplicative group modulo a prime -/

theorem natCast_pow_eq_one_iff (p a n : Nat) (hp : 1 < p) :
    ((a : ZMod p) ^ n = 1) ↔ a ^ n % p = 1 := by
  have h1 : (1 : ZMod p) = ((1 : Nat) : ZMod p) := by simp
  rw [← Nat.cast_pow, h1, ZMod.natCast_eq_natCast_iff', Nat.mod_eq_of_lt hp]

theorem natCast_ne_zero_of_range (p g : Nat) (hg2 : 2 ≤ g) (hgp : g ≤ p - 2) :
    (g : ZMod p) ≠ 0 := by
  intro h
  rw [ZMod.natCast_zmod_eq_zero_iff_dvd] at h
  have := Nat.le_of_dvd (by omega) h
  omega

theorem natCast_ne_one_of_range (p g : Nat) (hg2 : 2 ≤ g) (hgp : g ≤ p - 2) :
    (g : ZMod p) ≠ 1 := by
  intro h
  have h1 : (1 : ZMod p) = ((1 : Nat) : ZMod p) := by simp
  rw [h1, ZMod.natCast_eq_natCast_iff', Nat.mod_eq_of_lt (by omega : g < p),
    Nat.mod_eq_of_lt (by omega : 1 < p)] at h
  omega

theorem natCast_ne_neg_one_of_range (p g : Nat) (hg2 : 2 ≤ g) (hgp : g ≤ p - 2) :
    (g : ZMod p) ≠ -1 := by
  intro h
  have hcast : (((g + 1 : Nat)) : ZMod p) = 0 := by
    rw [Nat.cast_add, h]
    simp
  rw [ZMod.natCast_zmod_eq_zero_iff_dvd] at hcast
  have := Nat.le_of_dvd (by omega) hcast
  omega

theorem orderOf_generator (p g q : Nat) (hg2 : 2 ≤ g) (hgp : g ≤ p - 2)
    (hq : q.Prime) (hgq : g ^ q % p = 1) : orderOf (g : ZMod p) = q := by
  haveI : Fact q.Prime := ⟨hq⟩
  exact orderOf_eq_prime ((natCast_pow_eq_one_iff p g q (by omega)).mpr hgq)
    (natCast_ne_one_of_range p g hg2 hgp)

theorem generator_probes (p g q : Nat) (hp : p.Prime) (hg2 : 2 ≤ g) (hgp : g ≤ p - 2)
    (hq : q.Prime) (hgq : g ^ q % p = 1) :
    g ^ (q - 1) % p ≠ 1 ∧ g ^ (p - 1) % p = 1 := by
  haveI : Fact p.Prime := ⟨hp⟩
  have hp1 : 1 < p := hp.one_lt
  have hord := orderOf_generator p g q hg2 hgp hq hgq
  have hq2 := hq.two_le
  constructor
  · intro h
    exact pow_ne_one_of_lt_orderOf (by omega) (by rw [hord]; omega)
      ((natCast_pow_eq_one_iff p g (q - 1) hp1).mpr h)
  · rw [← natCast_pow_eq_one_iff p g (p - 1) hp1]
    exact ZMod.pow_card_sub_one_eq_one (natCast_ne_zero_of_range p g hg2 hgp)

theorem genuine_public_value (p g q k : Nat) (hp : p.Prime) (hg2 : 2 ≤ g)
    (hgp : g ≤ p - 2) (hq : q.Prime) (hgq : g ^ q % p = 1) (hk1 : 1 ≤ k) (hkq : k < q) :
    2 ≤ g ^ k % p ∧ g ^ k % p + 2 ≤ p ∧ (g ^ k % p) ^ q % p = 1 := by
  haveI : Fact p.Prime := ⟨hp⟩
  have hp1 : 1 < p := hp.one_lt
  have hord := orderOf_generator p g q hg2 hgp hq hgq
  have hlt : g ^ k % p < p := Nat.mod_lt _ (by omega)
  have hcast : ((g ^ k % p : Nat) : ZMod p) = (g : ZMod p) ^ k := by
    rw [ZMod.natCast_mod, Nat.cast_pow]
  have hne0 : g ^ k % p ≠ 0 := by
    intro h
    rw [h, Nat.cast_zero] at hcast
    exact natCast_ne_zero_of_range p g hg2 hgp (pow_eq_zero_iff (by omega) |>.mp hcast.symm)
  have hne1 : g ^ k % p ≠ 1 := by
    intro h
    rw [h, Nat.cast_one] at hcast
    exact pow_ne_one_of_lt_orderOf (by omega) (by rw [hord]; exact hkq) hcast.symm
  have hnep : g ^ k % p ≠ p - 1 := by
    intro h
    have hneg : (g : ZMod p) ^ k = -1 := by
      rw [← hcast, h, Nat.cast_sub (by omega)]
      simp
    have hsq : (g : ZMod p) ^ (2 * k) = 1 := by
      rw [Nat.mul_comm, pow_mul, hneg]
      simp
    have hdvd : q ∣ 2 * k := by
      rw [← hord]
      exact orderOf_dvd_of_pow_eq_one hsq
    rcases (Nat.Prime.dvd_mul hq).mp hdvd with h2 | hk
    · have hq2 : q ≤ 2 := Nat.le_of_dvd (by decide) h2
      have hk : k = 1 := by omega
      rw [hk, pow_one] at hneg
      exact natCast_ne_neg_one_of_range p g hg2 hgp hneg
    · have := Nat.le_of_dvd (by omega) hk
      omega
  refine ⟨by omega, by omega, ?_⟩
  rw [← Nat.pow_mod, ← pow_mul, Nat.mul_comm, pow_mul, Nat.pow_mod, hgq, one_pow,
    Nat.mod_eq_of_lt hp1]

/-- C12: for parameters with `p` prime, `2 <= g <= p - 2`, `q` prime and
`g ^ q mod p = 1`, and every exponent `k` with `1 <= k < q`,
`DH_check_pub_key_rfc` on the public value `g ^ k mod p` returns the empty flag
word. -/
theorem DH_check_pub_key_rfc_genuine (p g q k : Nat) (priv : Option Nat)
    (hp : p.Prime) (hg2 : 2 ≤ g) (hgp : g ≤ p - 2) (hq : q.Prime)
    (hgq : g ^ q % p = 1) (hk1 : 1 ≤ k) (hkq : k < q) :
    DH_check_pub_key_rfc ⟨p, g, some q, some (g ^ k % p), priv⟩ = some 0 := by
  obtain ⟨h2, hle, hsub⟩ := genuine_public_value p g q k hp hg2 hgp hq hgq hk1 hkq
  rw [DH_check_pub_key_rfc_eq_zero_iff]
  refine ⟨g ^ k % p, rfl, ?_⟩
  rw [DH_check_pub_key_eq_zero_iff]
  refine ⟨h2, hle, ?_⟩
  intro qv hqv
  have hqq : q = qv := Option.some.inj hqv
  rw [← hqq]
  exact hsub

theorem DH_check_pub_key_rfc_genuine_witness :
    DH_check_pub_key_rfc ⟨23, 2, some 11, some (2 ^ 3 % 23), some 3⟩ = some 0 :=
  DH_check_pub_key_rfc_genuine 23 2 11 3 (some 3) (by norm_num) (by decide) (by decide)
    (by norm_num) (by decide) (by decide) (by decide)

/-- C19: for parameters with `p` prime, `2 <= g <= p - 2`, `q` prime and
`g ^ q mod p = 1`, `DH_get_order` succeeds and returns `p - 1`: the first probe
`g ^ (q - 1) mod p = 1` does not hold, and `g ^ (p - 1) mod p = 1` does. -/
theorem DH_get_order_valid_parameters (p g q : Nat) (pub priv : Option Nat)
    (hp : p.Prime) (hg2 : 2 ≤ g) (hgp : g ≤ p - 2) (hq : q.Prime)
    (hgq : g ^ q % p = 1) :
    DH_get_order ⟨p, g, some q, pub, priv⟩ = some (p - 1) ∧
    g ^ (q - 1) % p ≠ 1 ∧ g ^ (p - 1) % p = 1 := by
  obtain ⟨h1, h2⟩ := generator_probes p g q hp hg2 hgp hq hgq
  have hp0 : ¬ p = 0 := by
    have := hp.two_le
    omega
  refine ⟨?_, h1, h2⟩
  simp [DH_get_order, DH_get_q, BN_is_prime_ex, hq, BN_mod_exp, hp0, h1, h2]

theorem DH_get_order_valid_parameters_witness :
    DH_get_order ⟨23, 2, some 11, none, none⟩ = some (23 - 1) ∧
    2 ^ (11 - 1) % 23 ≠ 1 ∧ 2 ^ (23 - 1) % 23 = 1 :=
  DH_get_order_valid_parameters 23 2 11 none none (by norm_num) (by decide) (by decide)
    (by norm_num) (by decide)

/-- C13 (the code at a failing input): for `p = 23`, `g = 2`, `q = 11`, where
`p` and `q` are prime and `g ^ q mod p = 1`, `DH_get_order` succeeds and returns
`22`, while the multiplicative order of `2` modulo `23` is `11`, not `22`. -/
theorem DH_get_order_not_order :
    DH_get_order ⟨23, 2, some 11, none, none⟩ = some 22 ∧
    IsMultiplicativeOrder 2 23 11 ∧
    ¬ IsMultiplicativeOrder 2 23 22 := by
  refine ⟨?_, by decide, by decide⟩
  have hprime : Nat.Prime 11 := by norm_num
  simp [DH_get_order, DH_get_q, BN_is_prime_ex, hprime, BN_mod_exp]

/-- C14 (the code at failing inputs): `get_rfc5114_modp` rejects `3`, which its
documentation calls valid, whatever the structural check says; it accepts `0`
and selects the first group for it, and for `1` it selects the second group. -/
theorem get_rfc5114_modp_index_base :
    (∀ DH_check : DH → Option Nat,
      get_rfc5114_modp DH_check 3 = Outcome.returns none) ∧
    get_rfc5114_modp (fun _ => some 0) 0 =
      Outcome.returns (some ⟨BN_bin2bn rfc_5114_modp_1_p, BN_bin2bn rfc_5114_modp_1_g,
        some (BN_bin2bn rfc_5114_modp_1_q), none, none⟩) ∧
    get_rfc5114_modp (fun _ => some 0) 1 =
      Outcome.returns (some ⟨BN_bin2bn rfc_5114_modp_2_p, BN_bin2bn rfc_5114_modp_2_g,
        some (BN_bin2bn rfc_5114_modp_2_q), none, none⟩) :=
  ⟨fun _ => rfl, rfl, rfl⟩

/-- C15: with parameters supplied, `init_dh` gives the same slot and the same
return value for every group hint; the slot always holds the supplied
parameters, and the call succeeds exactly when the structural check on them
reports a flag word that is empty after the two ignored flags are cleared. -/
theorem init_dh_supplied (DH_check : DH → Option Nat) (d : DH) (n1 n2 : Int) :
    init_dh DH_check (some d) n1 = init_dh DH_check (some d) n2 ∧
    (∃ ok, init_dh DH_check (some d) n1 = Outcome.returns (some d, ok)) ∧
    (init_dh DH_check (some d) n1 = Outcome.returns (some d, true) ↔
      ∃ f, DH_check d = some f ∧
        f % 2 ^ 32 &&& (2 ^ 32 - 1 - DH_CHECK_P_NOT_SAFE_PRIME)
          &&& (2 ^ 32 - 1 - DH_UNABLE_TO_CHECK_GENERATOR) = 0) := by
  refine ⟨rfl, ?_, ?_⟩
  · simp only [init_dh]
    cases DH_check d with
    | none => exact ⟨false, rfl⟩
    | some f =>
      simp only
      split
      · exact ⟨true, rfl⟩
      · exact ⟨false, rfl⟩
  · simp only [init_dh]
    cases DH_check d with
    | none => simp
    | some f =>
      simp only
      split <;> simp_all

theorem init_dh_supplied_witness :
    init_dh (fun _ => some 6) (some ⟨23, 2, some 11, none, none⟩) 0 =
      init_dh (fun _ => some 6) (some ⟨23, 2, some 11, none, none⟩) 99 ∧
    init_dh (fun _ => some 6) (some ⟨23, 2, some 11, none, none⟩) 99 =
      Outcome.returns (some ⟨23, 2, some 11, none, none⟩, true) :=
  ⟨(init_dh_supplied (fun _ => some 6) ⟨23, 2, some 11, none, none⟩ 0 99).1,
   (init_dh_supplied (fun _ => some 6) ⟨23, 2, some 11, none, none⟩ 99 0).2.2.mpr
     ⟨6, rfl, by decide⟩⟩

/-- C16 (as the code has it): when `DH_generate_key` stored the pair
`(priv, pub)` and `DH_check_pub_key_rfc` sets a flag on it, `dh_generate_key`
returns `NULL` and the key afterwards holds that pair: the `DH` object is the
one of the key, and nothing removes the pair from it. -/
theorem dh_generate_key_failure_keeps_pair (dh : DH) (priv pub ret : Nat)
    (hret : DH_check_pub_key_rfc { dh with priv_key := some priv, pub_key := some pub }
      = some ret)
    (hne : ret ≠ 0) :
    dh_generate_key ⟨some dh⟩ (some (priv, pub)) =
      (⟨some { dh with priv_key := some priv, pub_key := some pub }⟩, none) := by
  simp [dh_generate_key, EVP_PKEY_get1_DH, hret, hne]

theorem dh_generate_key_failure_keeps_pair_witness :
    dh_generate_key ⟨some ⟨23, 5, some 11, none, none⟩⟩ (some (3, 5 ^ 3 % 23)) =
      (⟨some ⟨23, 5, some 11, some (5 ^ 3 % 23), some 3⟩⟩, none) :=
  dh_generate_key_failure_keeps_pair ⟨23, 5, some 11, none, none⟩ 3 (5 ^ 3 % 23) 4
    (by decide) (by decide)

/-- C16 (counterexample): with `p = 23`, `g = 5`, `q = 11` and a key without a
pair, the generated pair `(3, 5 ^ 3 mod 23 = 10)` fails the check, the call
returns `NULL`, and the key afterwards holds the private value `3`: it is not
the key from before the call. -/
theorem dh_generate_key_failure_not_clean :
    (dh_generate_key ⟨some ⟨23, 5, some 11, none, none⟩⟩ (some (3, 10))).2 = none ∧
    (dh_generate_key ⟨some ⟨23, 5, some 11, none, none⟩⟩ (some (3, 10))).1 =
      ⟨some ⟨23, 5, some 11, some 10, some 3⟩⟩ ∧
    (dh_generate_key ⟨some ⟨23, 5, some 11, none, none⟩⟩ (some (3, 10))).1 ≠
      ⟨some ⟨23, 5, some 11, none, none⟩⟩ := by
  decide

/-- C17: `DHparams_dup_with_q` applied to parameters with `q` present returns
parameters with the same `p`, the same `g` and the same `q`. The function only
reads its argument. -/
theorem DHparams_dup_with_q_present (dh : DH) (q : Nat) (hq : dh.q = some q) :
    (DHparams_dup_with_q dh).p = dh.p ∧
    (DHparams_dup_with_q dh).g = dh.g ∧
    (DHparams_dup_with_q dh).q = some q := by
  simp [DHparams_dup_with_q, DHparams_dup, DH_set0_pqg, BN_dup, hq]

theorem DHparams_dup_with_q_present_witness :
    (DHparams_dup_with_q ⟨23, 2, some 11, some 8, some 3⟩).p = 23 ∧
    (DHparams_dup_with_q ⟨23, 2, some 11, some 8, some 3⟩).g = 2 ∧
    (DHparams_dup_with_q ⟨23, 2, some 11, some 8, some 3⟩).q = some 11 :=
  DHparams_dup_with_q_present ⟨23, 2, some 11, some 8, some 3⟩ 11 rfl

/-- C18 (the code at a failing input): with an empty slot and the hint `0`,
when the structural check inside the registry lookup reports
`DH_CHECK_P_NOT_PRIME` or errors, the lookup frees `p`, `q` and `g` twice and
`init_dh` has no defined result, so nothing is guaranteed about the slot. On
every run of `init_dh` that returns failure the slot is what it was before. -/
theorem init_dh_lookup_double_free :
    init_dh (fun _ => some DH_CHECK_P_NOT_PRIME) none 0 = Outcome.undefined ∧
    init_dh (fun _ => none) none 0 = Outcome.undefined ∧
    (∀ (DH_check : DH → Option Nat) (dh : Option DH) (num : Int) (slot : Option DH),
      init_dh DH_check dh num = Outcome.returns (slot, false) → slot = dh) := by
  refine ⟨rfl, rfl, ?_⟩
  intro DH_check dh num slot h
  simp only [init_dh] at h
  generalize (match dh with
    | none => get_rfc5114_modp DH_check num
    | some d => Outcome.returns (some d)) = r at h
  cases r with
  | undefined => exact absurd h (by simp)
  | returns v =>
    cases v with
    | none =>
      simp only [Outcome.returns.injEq, Prod.mk.injEq, and_true] at h
      exact h.symm
    | some tmp =>
      simp only at h
      cases hf : DH_check tmp with
      | none =>
        rw [hf] at h
        simp only [Outcome.returns.injEq, Prod.mk.injEq, and_true] at h
        exact h.symm
      | some flags =>
        rw [hf] at h
        simp only at h
        split at h
        · simp at h
        · simp only [Outcome.returns.injEq, Prod.mk.injEq, and_true] at h
          exact h.symm

end EacDh
